import Mathlib

/-!
# HyperOrbitGame — formal model of the per-frame simulation core

A shallow embedding of the simulation engine of `src/script.js` (ring store
and windowing, procedural ring generation, orbit kinematics, the pressure /
critical-orbit state machine, the escape / chain detector, the fail-condition
evaluator) and of the deterministic daily-pattern generator of
`src/unnamed/part_002`.

Modelling conventions:
* JavaScript numbers are modelled as exact rationals (`ℚ`); floating-point
  rounding is idealised away.  `Math.PI` is modelled by `jsPI`, the exact
  rational value of the IEEE-754 double used by JS.
* The JS `%` operator (remainder with the sign of the dividend) is `jsRem`.
* `Math.random()` draws are supplied by explicit oracles (`GenDraws`, the
  per-tick `Env`), one value per call site, each in `[0,1)`.
* 32-bit coercions of JS bitwise operators are modelled with explicit
  `% 2 ^ 32` on `ℕ`.
* Rendering-only state (particles, glows, screen shake, score popups, the
  tweened ball radius) is omitted: it never feeds back into simulation state.
* `performance.now()` is modelled by a `now` field (milliseconds) advanced by
  `1000 * dt` at the start of each tick.
-/

namespace HyperOrbit

/-- The exact rational value of the IEEE-754 double `Math.PI`
(`884279719003555 / 2 ^ 48`) used by the JS source. -/
def jsPI : ℚ := 884279719003555 / 281474976710656

/-- JS truncation toward zero (the implicit truncation in the `%` operator). -/
def jsTrunc (q : ℚ) : ℤ := if 0 ≤ q then ⌊q⌋ else ⌈q⌉

/-- The JS `%` operator on numbers: `x % y = x - y * trunc(x / y)`,
a remainder that carries the sign of the dividend. -/
def jsRem (x y : ℚ) : ℚ := x - y * jsTrunc (x / y)

/-- `clamp(v,a,b)` — script.js line 849: `Math.max(a, Math.min(b, v))`. -/
def clamp (v a b : ℚ) : ℚ := max a (min b v)

/-- `lerp(a,b,t)` — script.js line 850. -/
def lerp (a b t : ℚ) : ℚ := a + (b - a) * t

/-- `rand(a,b)` — script.js line 848: `a + Math.random()*(b-a)`, with the
`Math.random()` draw `u` made explicit. -/
def rand (u a b : ℚ) : ℚ := a + u * (b - a)

/-- `Math.sign`. -/
def jsSign (q : ℚ) : ℚ := if 0 < q then 1 else if q < 0 then -1 else 0

/-- `angNorm(a)` — script.js lines 852-857: reduce an angle with the JS `%`
operator and shift into `[-π, π]`. -/
def angNorm (a : ℚ) : ℚ :=
  let a1 := jsRem a (jsPI * 2)
  let a2 := if a1 < -jsPI then a1 + jsPI * 2 else a1
  if a2 > jsPI then a2 - jsPI * 2 else a2

/-- `angDiff(a,b)` — script.js line 858. -/
def angDiff (a b : ℚ) : ℚ := angNorm (a - b)

/-! ## Daily pattern generator (src/unnamed/part_002) -/

/-- One step of the mulberry32 PRNG (part_002 lines 54-61), bit-exact on the
32-bit patterns of the JS coercions: returns the `>>> 0` output (a natural
number below `2 ^ 32`) and the updated seed.  The JS seed accumulates without
wrapping (exact in a double for the call counts involved); every bitwise
operator coerces to 32 bits, modelled by `% 2 ^ 32`. -/
def mulberryNext (seed : ℕ) : ℕ × ℕ :=
  let s := seed + 0x6D2B79F5
  let t0 := s % 2 ^ 32
  let t1 := ((t0 ^^^ (t0 >>> 15)) * (t0 ||| 1)) % 2 ^ 32
  let m := ((t1 ^^^ (t1 >>> 7)) * (t1 ||| 61)) % 2 ^ 32
  let t2 := t1 ^^^ ((t1 + m) % 2 ^ 32)
  (t2 ^^^ (t2 >>> 14), s)

/-- The first `n` outputs of the mulberry32 stream from a given seed. -/
def mulberryList (seed : ℕ) : ℕ → List ℕ
  | 0 => []
  | n + 1 =>
    let p := mulberryNext seed
    p.1 :: mulberryList p.2 n

/-- Signed reading of a 32-bit pattern (JS `ToInt32`). -/
def toInt32 (n : ℕ) : ℤ :=
  if n % 2 ^ 32 < 2 ^ 31 then (n % 2 ^ 32 : ℤ) else (n % 2 ^ 32 : ℤ) - 2 ^ 32

/-- `dateToSeed` (part_002 lines 66-73): the JS string hash
`hash = ((hash << 5) - hash) + charCode; hash = hash & hash` iterated over the
string, then `Math.abs` of the signed 32-bit result. -/
def dateToSeed (s : String) : ℕ :=
  (toInt32 ((s.data.map Char.toNat).foldl
    (fun h c => ((32 * (h : ℤ) - h + c) % 2 ^ 32).toNat) 0)).natAbs

/-- A daily pattern: the pre-generated gap-center sequence. -/
structure Pattern where
  gapCenters : List ℚ
  deriving DecidableEq

/-- `generateDailyPattern(dateId, length)` (part_002 lines 82-97): seed the
PRNG from the date string and push `rng() * Math.PI * 2` `length` times. -/
def generateDailyPattern (dateId : String) (len : ℕ) : Pattern :=
  ⟨(mulberryList (dateToSeed dateId) len).map
    (fun (v : ℕ) => (v : ℚ) / 4294967296 * jsPI * 2)⟩

/-- `getDailyGapCenter(dailyPattern, ringIndex)` (part_002 lines 196-204) on
the with-pattern path: the entry at `ringIndex % length`.  (The JS fallback for
a missing pattern draws `Math.random()*2π` and is taken only outside daily
mode; patterns produced by `generateDailyPattern` always have length 50.) -/
def getDailyGapCenter (p : Pattern) (ringIndex : ℕ) : ℚ :=
  p.gapCenters.getD (ringIndex % p.gapCenters.length) 0

/-! ## Tuning constants (script.js lines 184-195) -/

def BALL_SPEED_BASE_NORMAL : ℚ := 1.15
def BALL_SPEED_BASE_EXPERT : ℚ := 1.45
def BALL_SPEED_INCREASE_NORMAL : ℚ := 0.018
def BALL_SPEED_INCREASE_EXPERT : ℚ := 0.025
def BALL_SPEED_MAX : ℚ := 3.5
def RING_SPEED_MIN : ℚ := 0.40
def RING_SPEED_MAX_NORMAL : ℚ := 1.05
def RING_SPEED_MAX_EXPERT : ℚ := 1.35
def RING_SPEED_INCREASE : ℚ := 0.06
def RING_SPEED_ABSOLUTE_MAX : ℚ := 3.0

/-! ## A/B experiment parameters (src/js/ab.js) -/

structure AbParams where
  criticalWindow : ℚ
  pressureTimeRate : ℚ
  pressureTapRate : ℚ
  criticalThreshold : ℚ
  partialResetAmount : ℚ
  deriving DecidableEq

inductive ABGroup | A | B
  deriving DecidableEq

/-- `getABParams` (ab.js lines 24-50): cohort A gets a 12 s critical window,
cohort B 14 s; every other parameter is identical. -/
def getABParams : ABGroup → AbParams
  | .A => ⟨12, 0.08, 0.12, 0.9, 0.4⟩
  | .B => ⟨14, 0.08, 0.12, 0.9, 0.4⟩

/-! ## Modes (src/unnamed/part_002 lines 5-30) -/

inductive Mode | endless | daily | sprint
  deriving DecidableEq

/-- `MODES[*].finiteTarget`: daily completes at 40 rings, sprint at 30,
endless never. -/
def modeFiniteTarget : Mode → Option ℕ
  | .endless => none
  | .daily => some 40
  | .sprint => some 30

/-! ## Procedural ring generation (script.js lines 944-1006) -/

/-- One ring descriptor (the value stored in `state.rings`). -/
structure Ring where
  gapCenter : ℚ
  gapWidth : ℚ
  rotSpeed : ℚ
  drift : ℚ
  hasObstacle : Bool
  obstacleAngle : ℚ
  deriving DecidableEq

/-- The `Math.random()` draws consumed by one call of `ringParamsForIndex`,
in call order; each is a value in `[0,1)`. -/
structure GenDraws where
  gapU : ℚ
  signU : ℚ
  speedU : ℚ
  driftU : ℚ
  obstU : ℚ
  obstAngleU : ℚ

/-- Run-level configuration: globals of script.js that are fixed for the
duration of a run (`expert`, the A/B parameters, the current mode and daily
pattern, and the layout constants `state.R_inner` / `state.gapPx`). -/
structure Config where
  expert : Bool
  mode : Mode
  dailyPattern : Option Pattern
  ab : AbParams
  rInner : ℚ
  gapPx : ℚ

/-- `ringParamsForIndex(i)` (script.js lines 944-992) with its random draws
made explicit.  Gap width is a mode constant; the gap center comes from the
daily pattern in daily mode and is uniform otherwise; rotation speed grows
with the index and is capped; obstacles are possible from index 5 on and
halve the rotation speed. -/
def ringParamsForIndex (cfg : Config) (i : ℕ) (d : GenDraws) : Ring :=
  let gapWidth : ℚ := if cfg.expert then 0.42 else 0.56
  let gapCenter :=
    match cfg.mode, cfg.dailyPattern with
    | .daily, some p => getDailyGapCenter p i
    | _, _ => rand d.gapU 0 (jsPI * 2)
  let maxSpeed := if cfg.expert then RING_SPEED_MAX_EXPERT else RING_SPEED_MAX_NORMAL
  let baseRotSpeed :=
    (if d.signU < 0.5 then -1 else 1) * rand d.speedU RING_SPEED_MIN maxSpeed *
      (1 + (i : ℚ) * RING_SPEED_INCREASE)
  let rotSpeed := min |baseRotSpeed| RING_SPEED_ABSOLUTE_MAX * jsSign baseRotSpeed
  let drift := rand d.driftU 0 (if cfg.expert then 0.085 else 0.055)
  let hasObstacle :=
    decide (5 ≤ i) && decide (d.obstU < 0.30 + min 1 (((i : ℚ) - 50) / 200) * 0.40)
  let obstacleAngle :=
    if hasObstacle then rand d.obstAngleU (jsPI / 2) (jsPI * 2 - gapWidth - jsPI / 2) else 0
  { gapCenter := gapCenter
    gapWidth := gapWidth
    rotSpeed := if hasObstacle then rotSpeed * 0.5 else rotSpeed
    drift := drift
    hasObstacle := hasObstacle
    obstacleAngle := obstacleAngle }

/-! ## Ring store and windowing (script.js lines 994-1021) -/

/-- `state.rings`: the set of present indices plus their descriptors.
`data` is meaningful only on `keys` (reads in the source are guarded by
presence). -/
structure RingStore where
  keys : Finset ℕ
  data : ℕ → Ring

/-- `WINDOW.PAST = 2`, `WINDOW.FUTURE = 4` (script.js lines 263-267). -/
def WINDOW_PAST : ℕ := 2
def WINDOW_FUTURE : ℕ := 4

/-- `ensureRing(i)` (script.js 994-1006): create-if-absent from the
generator; never overwrites an existing ring. -/
def ensureRing (cfg : Config) (gen : ℕ → GenDraws) (i : ℕ) (s : RingStore) : RingStore :=
  if i ∈ s.keys then s
  else ⟨insert i s.keys, Function.update s.data i (ringParamsForIndex cfg i (gen i))⟩

/-- `pruneRings()` (script.js 1008-1014): delete every index outside
`[max(0, escaped - PAST), escaped + FUTURE]` (truncated ℕ subtraction is
exactly the `max(0, ·)`). -/
def pruneRings (escaped : ℕ) (s : RingStore) : RingStore :=
  ⟨s.keys.filter (fun k => escaped - WINDOW_PAST ≤ k ∧ k ≤ escaped + WINDOW_FUTURE), s.data⟩

/-- `ensureWindow()` (script.js 1016-1021): ensure every index of the window,
then prune the rest. -/
def ensureWindow (cfg : Config) (gen : ℕ → GenDraws) (escaped : ℕ) (s : RingStore) : RingStore :=
  pruneRings escaped
    ((List.range' (escaped - WINDOW_PAST)
        (escaped + WINDOW_FUTURE + 1 - (escaped - WINDOW_PAST))).foldl
      (fun st i => ensureRing cfg gen i st) s)

/-- `effectiveGapWidth(r)` (script.js 1027-1029). -/
def effectiveGapWidth (r : Ring) : ℚ := clamp r.gapWidth 0.08 0.95

/-! ## Run state (the simulation-relevant fields of script.js's `state`) -/

structure GState where
  store : RingStore
  escaped : ℕ
  ballAngle : ℚ
  ballDir : ℤ
  orbitSpeed : ℚ
  score : ℕ
  chain : ℕ
  chainTimer : ℚ
  timeSinceLastEscape : ℚ
  pressure : ℚ
  criticalActive : Bool
  criticalStartTime : ℚ
  criticalElapsed : ℚ
  timeInRing : ℚ
  maxRingTime : ℚ
  perfectStreak : ℕ
  bestPerfectStreak : ℕ
  pendingEscapes : List ℕ
  escapeTweenProgress : ℚ
  escapeTweenDuration : ℚ
  escapeTargetEscaped : ℕ
  focus : ℚ
  now : ℚ
  tapsInWindow : List ℚ
  sprintCompleted : Bool
  dailyCompleted : Bool

/-- `screenRadiusForIndex(i)` (script.js 1023-1025). -/
def screenRadiusForIndex (cfg : Config) (s : GState) (i : ℕ) : ℚ :=
  cfg.rInner + ((i : ℚ) - s.focus) * cfg.gapPx

/-- `resetGame()` (script.js 1067-1129), restricted to the simulation fields.
`ballU` is the `Math.random()` draw for the initial ball angle, `gen` the
draws for the rings created by the initial `ensureWindow()`, `t0` the value
of `performance.now()` (ms). -/
def resetGame (cfg : Config) (gen : ℕ → GenDraws) (ballU : ℚ) (t0 : ℚ) : GState where
  store := ensureWindow cfg gen 0 ⟨∅, fun _ => ⟨0, 0, 0, 0, false, 0⟩⟩
  escaped := 0
  ballAngle := rand ballU 0 (jsPI * 2)
  ballDir := 1
  orbitSpeed := 0
  score := 0
  chain := 1
  chainTimer := 0
  timeSinceLastEscape := 999
  pressure := 0
  criticalActive := false
  criticalStartTime := 0
  criticalElapsed := 0
  timeInRing := 0
  maxRingTime := if cfg.expert then 6.0 else 7.5
  perfectStreak := 0
  bestPerfectStreak := 0
  pendingEscapes := []
  escapeTweenProgress := 0
  escapeTweenDuration := 0
  escapeTargetEscaped := 0
  focus := 0
  now := t0
  tapsInWindow := []
  sprintCompleted := false
  dailyCompleted := false

/-- `onTap()` (script.js 1287-1314): reverse the orbit direction and add
tap pressure, with the spam multiplier growing once more than 3 taps fall in
the trailing 1000 ms window.  (Screen shake and `lastTapTime` are
rendering-only and omitted.) -/
def onTap (cfg : Config) (s : GState) : GState :=
  let taps := (s.tapsInWindow.filter (fun t => decide (s.now - t < 1000))) ++ [s.now]
  let n := taps.length
  let spamMultiplier : ℚ := if 3 < n then 1 + ((n : ℚ) - 3) * 0.3 else 1
  { s with
    ballDir := -s.ballDir
    tapsInWindow := taps
    pressure := clamp (s.pressure + cfg.ab.pressureTapRate * spamMultiplier) 0 1 }

/-! ## One tick: `step(dt)` (script.js 1327-1729), split into its phases.

Each phase is a single structure update so that untouched fields project
definitionally.  The per-tick randomness is an `Env`: generator draws for
rings created this tick, the per-ring rotation jitter draw, and the new
focus value (the source computes it by exponential smoothing
`easeToward(focus, escaped, hz, dt)`, a transcendental map that no claim
constrains; it is therefore supplied as an oracle input). -/

structure Env where
  gen : ℕ → GenDraws
  jitter : ℕ → ℚ
  focusNext : ℚ

inductive EndReason | pressureFail | obstacle | time
  deriving DecidableEq

inductive StepExit
  | ok
  | ended (r : EndReason)
  | completed
  deriving DecidableEq

/-- Phase 1 (script.js 1328-1366 up to the timeout test): advance the clock,
re-window, accumulate and decay pressure (both clamped into `[0,1]`), enter
critical orbit when the threshold is crossed, and refresh the critical
elapsed time. -/
def stepEnter (cfg : Config) (gen : ℕ → GenDraws) (dt : ℚ) (s : GState) : GState :=
  let now' := s.now + 1000 * dt
  let p2 := clamp (clamp (s.pressure + cfg.ab.pressureTimeRate * dt) 0 1
      - (if cfg.expert then 0.08 else 0.06) * dt) 0 1
  let enter := !s.criticalActive && decide (cfg.ab.criticalThreshold ≤ p2)
  let start' := if enter then now' else s.criticalStartTime
  { s with
    now := now'
    store := ensureWindow cfg gen s.escaped s.store
    pressure := p2
    criticalActive := s.criticalActive || enter
    criticalStartTime := start'
    criticalElapsed :=
      if s.criticalActive || enter then (now' - start') / 1000 else s.criticalElapsed }

/-- The critical-orbit timeout test (script.js 1359): `state.criticalWindow`
is the copy of `abParams.criticalWindow` made by `resetGame`. -/
def criticalTimedOut (cfg : Config) (s : GState) : Bool :=
  s.criticalActive && decide (cfg.ab.criticalWindow ≤ s.criticalElapsed)

/-- The orbit speed of this tick (script.js 1368-1374): pressure slows the
ball by up to 55%. -/
def orbitSpeedOf (cfg : Config) (s : GState) : ℚ :=
  min ((if cfg.expert then BALL_SPEED_BASE_EXPERT else BALL_SPEED_BASE_NORMAL)
      + (s.score : ℚ) * (if cfg.expert then BALL_SPEED_INCREASE_EXPERT else BALL_SPEED_INCREASE_NORMAL))
    BALL_SPEED_MAX * lerp 1.00 0.45 s.pressure

/-- The ring store after this tick's rotation pass (script.js 1377-1382):
frozen entirely while a chain transition animates. -/
def rotateRings (jitter : ℕ → ℚ) (dt : ℚ) (s : GState) : RingStore :=
  if s.pendingEscapes.isEmpty then
    ⟨s.store.keys, fun i =>
      let r := s.store.data i
      if i ∈ s.store.keys then
        { r with gapCenter :=
            jsRem (r.gapCenter + (r.rotSpeed + (jitter i - 0.5) * r.drift) * dt) (jsPI * 2) }
      else r⟩
  else s.store

/-- The tween-completion condition (script.js 1388, 1427):
a transition is animating and its clamped progress reached 1. -/
def commitCond (dt : ℚ) (s : GState) : Bool :=
  !s.pendingEscapes.isEmpty &&
    decide (1 ≤ clamp (s.escapeTweenProgress + dt / s.escapeTweenDuration) 0 1)

/-- Phase 2 (script.js 1368-1443): orbit speed from pressure (high pressure
slows the ball), ring rotation (frozen while a chain transition animates),
ball advance with the JS `%` wrap, and the escape-tween update committing
`escaped := escapeTargetEscaped` when progress reaches 1. -/
def stepKinematics (cfg : Config) (gen : ℕ → GenDraws) (jitter : ℕ → ℚ) (dt : ℚ)
    (s : GState) : GState :=
  { s with
    orbitSpeed := orbitSpeedOf cfg s
    ballAngle := jsRem (s.ballAngle + (s.ballDir : ℚ) * orbitSpeedOf cfg s * dt) (jsPI * 2)
    escaped := if commitCond dt s then s.escapeTargetEscaped else s.escaped
    pendingEscapes := if commitCond dt s then [] else s.pendingEscapes
    escapeTweenProgress :=
      if commitCond dt s then 0
      else if s.pendingEscapes.isEmpty then s.escapeTweenProgress
      else clamp (s.escapeTweenProgress + dt / s.escapeTweenDuration) 0 1
    store :=
      if commitCond dt s then
        ensureWindow cfg gen s.escapeTargetEscaped (rotateRings jitter dt s)
      else rotateRings jitter dt s }

/-- The obstacle-collision test (script.js 1446-1460): the obstacle co-rotates
with its ring and kills when the ball is within half the triangle's angular
width. -/
def obstacleHit (cfg : Config) (s : GState) : Bool :=
  decide (s.escaped ∈ s.store.keys) &&
  (s.store.data s.escaped).hasObstacle &&
  (let r := s.store.data s.escaped
   let triangleAngleWidth := cfg.gapPx * 0.75 / screenRadiusForIndex cfg s s.escaped
   decide (|angDiff s.ballAngle (r.gapCenter + r.obstacleAngle)| ≤ triangleAngleWidth * 0.5))

/-- Phase 3 (script.js 1463-1466): advance the two timers. -/
def stepTimers (dt : ℚ) (s : GState) : GState :=
  { s with
    timeSinceLastEscape := s.timeSinceLastEscape + dt
    timeInRing := s.timeInRing + dt }

/-- The per-ring time budget (script.js 1468): a floor-clamped linearly
shrinking budget. -/
def timeLimitOf (cfg : Config) (s : GState) : ℚ :=
  max 2.6 (s.maxRingTime - (s.score : ℚ) * (if cfg.expert then 0.08 else 0.06))

/-- The ring-timeout test (script.js 1469): strict `>`. -/
def ringTimedOut (cfg : Config) (s : GState) : Bool :=
  decide (timeLimitOf cfg s < s.timeInRing)

/-- Phase 4 (script.js 1475-1476): chain-timer decay; the multiplier resets
to 1 the moment the timer reaches 0. -/
def stepChainDecay (dt : ℚ) (s : GState) : GState :=
  { s with
    chainTimer := max 0 (s.chainTimer - dt)
    chain := if max 0 (s.chainTimer - dt) = 0 then 1 else s.chain }

/-- The alignment test of the chain detector (script.js 1493-1499):
`|angDiff(ballAngle, gapCenter)| ≤ effectiveGapWidth(r)/2`. -/
def alignedB (ball : ℚ) (r : Ring) : Bool :=
  decide (|angDiff ball r.gapCenter| ≤ effectiveGapWidth r / 2)

/-- The ring the detector sees at index `i`: the stored one if present,
otherwise the one `ensureRing` would create. -/
def ringAt (cfg : Config) (gen : ℕ → GenDraws) (st : RingStore) (i : ℕ) : Ring :=
  if i ∈ st.keys then st.data i else ringParamsForIndex cfg i (gen i)

/-- The chain-detection loop (script.js 1489-1505): for up to `fuel`
consecutive indices starting at `idx`, ensure the ring exists and include it
while it is aligned; the first misaligned ring breaks the chain.  Returns the
mutated store and the chain.  (`ensureRing` guarantees presence, so the JS
`if(!r) break` guard is unreachable.) -/
def detectAux (cfg : Config) (gen : ℕ → GenDraws) (ball : ℚ) :
    ℕ → ℕ → RingStore → RingStore × List ℕ
  | 0, _, st => (st, [])
  | fuel + 1, idx, st =>
    if alignedB ball ((ensureRing cfg gen idx st).data idx) then
      ((detectAux cfg gen ball fuel (idx + 1) (ensureRing cfg gen idx st)).1,
        idx :: (detectAux cfg gen ball fuel (idx + 1) (ensureRing cfg gen idx st)).2)
    else (ensureRing cfg gen idx st, [])

/-- `maxChainCheck = 6` (script.js 1483). -/
def detectChain (cfg : Config) (gen : ℕ → GenDraws) (ball : ℚ) (escaped : ℕ)
    (st : RingStore) : RingStore × List ℕ :=
  detectAux cfg gen ball 6 escaped st

/-- The escape-processing block (script.js 1508-1688) run when the detected
chain `L` is non-empty: perfect-streak update, critical-orbit resolution
(full reset when critical, partial otherwise), score and timer updates,
mode-completion flags, the scheduled transition, and the chain-multiplier
update `chain := min(9, chain + k)`, `chainTimer := 1.15·k` (both the
multi-ring and the single-ring branch use these same formulas). -/
def processEscape (cfg : Config) (gen : ℕ → GenDraws) (s : GState) (L : List ℕ) : GState :=
  let k := L.length
  let ps' := if clamp (s.timeInRing / max 0.0001 (timeLimitOf cfg s)) 0 1 ≤ 0.05
    then s.perfectStreak + 1 else 0
  let score' := s.score + k
  let targetReached :=
    match modeFiniteTarget cfg.mode with
    | some t => decide (t ≤ score')
    | none => false
  { s with
    perfectStreak := ps'
    bestPerfectStreak := max s.bestPerfectStreak ps'
    pressure := if s.criticalActive then 0 else max 0 (s.pressure - cfg.ab.partialResetAmount)
    criticalActive := false
    criticalElapsed := if s.criticalActive then 0 else s.criticalElapsed
    score := score'
    timeInRing := 0
    timeSinceLastEscape := 0
    sprintCompleted := s.sprintCompleted || (targetReached && decide (cfg.mode = Mode.sprint))
    dailyCompleted := s.dailyCompleted || (targetReached && decide (cfg.mode = Mode.daily))
    pendingEscapes := L
    escapeTweenProgress := 0
    escapeTargetEscaped := s.escaped + k
    escapeTweenDuration :=
      if 1 < k then
        min ((if cfg.expert then 0.12 else 0.15) + ((k : ℚ) - 1) * 0.05) 0.4
      else if cfg.expert then 0.10 else 0.12
    chainTimer := 1.15 * (k : ℚ)
    chain := min 9 (s.chain + k)
    store := if k = 1 then ensureWindow cfg gen s.escaped s.store else s.store }

/-- Phase 5 (script.js 1479-1688): the detector runs only when no transition
is pending; the rings it ensures stay in the store either way. -/
def detectPhase (cfg : Config) (gen : ℕ → GenDraws) (s : GState) : GState :=
  if s.pendingEscapes.isEmpty then
    let res := detectChain cfg gen s.ballAngle s.escaped s.store
    if res.2.isEmpty then { s with store := res.1 }
    else processEscape cfg gen { s with store := res.1 } res.2
  else s

/-- Phase 6 (script.js 1720-1728): focus follower (oracle), final
re-windowing, and the mode-completion hand-off. -/
def stepExitPhase (cfg : Config) (gen : ℕ → GenDraws) (focusNext : ℚ) (s : GState) :
    GState × StepExit :=
  ({ s with focus := focusNext, store := ensureWindow cfg gen s.escaped s.store },
    if s.sprintCompleted || s.dailyCompleted then .completed else .ok)

/-- `step(dt)` (script.js 1327-1729): the tick, with the three fatal tests in
source order, each returning early. -/
def step (cfg : Config) (env : Env) (dt : ℚ) (s0 : GState) : GState × StepExit :=
  let s1 := stepEnter cfg env.gen dt s0
  if criticalTimedOut cfg s1 then (s1, .ended .pressureFail)
  else
    let s2 := stepKinematics cfg env.gen env.jitter dt s1
    if obstacleHit cfg s2 then (s2, .ended .obstacle)
    else
      let s3 := stepTimers dt s2
      if ringTimedOut cfg s3 then (s3, .ended .time)
      else
        stepExitPhase cfg env.gen env.focusNext (detectPhase cfg env.gen (stepChainDecay dt s3))

/-- Validity of an oracle draw packet: every `Math.random()` output lies in
`[0,1)`. -/
def ValidDraws (d : GenDraws) : Prop :=
  0 ≤ d.gapU ∧ d.gapU < 1 ∧ 0 ≤ d.signU ∧ d.signU < 1 ∧ 0 ≤ d.speedU ∧ d.speedU < 1 ∧
  0 ≤ d.driftU ∧ d.driftU < 1 ∧ 0 ≤ d.obstU ∧ d.obstU < 1 ∧ 0 ≤ d.obstAngleU ∧ d.obstAngleU < 1

/-- The states a run can be in: a fresh reset (with valid random draws),
or the result of a tap or of a tick that did not end the run. -/
inductive Reachable (cfg : Config) : GState → Prop
  | reset (gen : ℕ → GenDraws) (ballU t0 : ℚ) :
      (∀ i, ValidDraws (gen i)) → 0 ≤ ballU → ballU < 1 →
      Reachable cfg (resetGame cfg gen ballU t0)
  | tap (s : GState) : Reachable cfg s → Reachable cfg (onTap cfg s)
  | tick (s s' : GState) (env : Env) (dt : ℚ) :
      Reachable cfg s → (∀ i, ValidDraws (env.gen i)) →
      (∀ i, 0 ≤ env.jitter i ∧ env.jitter i < 1) →
      step cfg env dt s = (s', .ok) → Reachable cfg s'

/-! ## Basic numeric lemmas -/

lemma jsPI_pos : 0 < jsPI := by norm_num [jsPI]

lemma jsRem_nonneg_bounds {x y : ℚ} (hy : 0 < y) (hx : 0 ≤ x) :
    0 ≤ jsRem x y ∧ jsRem x y < y := by
  have hq : (0 : ℚ) ≤ x / y := div_nonneg hx hy.le
  have h1 : ((⌊x / y⌋ : ℚ)) ≤ x / y := Int.floor_le _
  have h2 : x / y < ⌊x / y⌋ + 1 := Int.lt_floor_add_one _
  have h1' : (⌊x / y⌋ : ℚ) * y ≤ x := (le_div_iff₀ hy).mp h1
  have h2' : x < ((⌊x / y⌋ : ℚ) + 1) * y := (div_lt_iff₀ hy).mp h2
  unfold jsRem jsTrunc
  rw [if_pos hq]
  constructor <;> nlinarith

lemma jsRem_neg_bounds {x y : ℚ} (hy : 0 < y) (hx : x < 0) :
    -y < jsRem x y ∧ jsRem x y ≤ 0 := by
  have hq : ¬ (0 : ℚ) ≤ x / y := not_le.mpr (div_neg_of_neg_of_pos hx hy)
  have h1 : x / y ≤ ((⌈x / y⌉ : ℚ)) := Int.le_ceil _
  have h2 : ((⌈x / y⌉ : ℚ)) < x / y + 1 := Int.ceil_lt_add_one _
  have h1' : x ≤ (⌈x / y⌉ : ℚ) * y := (div_le_iff₀ hy).mp h1
  have h3 : (x / y) * y = x := div_mul_cancel₀ x hy.ne'
  unfold jsRem jsTrunc
  rw [if_neg hq]
  constructor <;> nlinarith

lemma jsRem_eq_self {x y : ℚ} (hy : 0 < y) (h1 : -y < x) (h2 : x < y) :
    jsRem x y = x := by
  rcases le_or_lt 0 x with hx | hx
  · have hq : (0 : ℚ) ≤ x / y := div_nonneg hx hy.le
    have hz : ⌊x / y⌋ = 0 := by
      rw [Int.floor_eq_zero_iff]
      exact ⟨hq, by rw [div_lt_one hy]; exact h2⟩
    unfold jsRem jsTrunc
    rw [if_pos hq, hz]
    push_cast
    ring
  · have hq : ¬ (0 : ℚ) ≤ x / y := not_le.mpr (div_neg_of_neg_of_pos hx hy)
    have hz : ⌈x / y⌉ = 0 := by
      rw [Int.ceil_eq_zero_iff]
      refine ⟨?_, div_nonpos_of_nonpos_of_nonneg hx.le hy.le⟩
      rw [lt_div_iff₀ hy]
      linarith
    unfold jsRem jsTrunc
    rw [if_neg hq, hz]
    push_cast
    ring

lemma jsRem_bounds {x y : ℚ} (hy : 0 < y) : -y < jsRem x y ∧ jsRem x y < y := by
  rcases le_or_lt 0 x with hx | hx
  · obtain ⟨h1, h2⟩ := jsRem_nonneg_bounds hy hx
    exact ⟨by linarith, h2⟩
  · obtain ⟨h1, h2⟩ := jsRem_neg_bounds hy hx
    exact ⟨h1, by linarith⟩

lemma angNorm_eq_self {a : ℚ} (h1 : -jsPI ≤ a) (h2 : a ≤ jsPI) : angNorm a = a := by
  have hpi := jsPI_pos
  have hr : jsRem a (jsPI * 2) = a :=
    jsRem_eq_self (by linarith) (by linarith) (by linarith)
  unfold angNorm
  simp only [hr]
  rw [if_neg (not_lt.mpr h1), if_neg (not_lt.mpr h2)]

lemma clamp_mem_unit (v : ℚ) : 0 ≤ clamp v 0 1 ∧ clamp v 0 1 ≤ 1 :=
  ⟨le_max_left _ _, max_le (by norm_num) (min_le_left _ _)⟩

lemma clamp_eq_self {v a b : ℚ} (ha : a ≤ v) (hb : v ≤ b) : clamp v a b = v := by
  unfold clamp
  rw [min_eq_right hb, max_eq_right ha]

/-! ## Ring-store lemmas -/

lemma ensureRing_keys (cfg : Config) (gen : ℕ → GenDraws) (i : ℕ) (s : RingStore) :
    (ensureRing cfg gen i s).keys = insert i s.keys := by
  unfold ensureRing
  split
  · rename_i h
    exact (Finset.insert_eq_self.mpr h).symm
  · rfl

lemma ensureRing_data_of_mem (cfg : Config) (gen : ℕ → GenDraws) {i j : ℕ} (s : RingStore)
    (hj : j ∈ s.keys) : (ensureRing cfg gen i s).data j = s.data j := by
  unfold ensureRing
  split
  · rfl
  · rename_i h
    exact Function.update_noteq (by rintro rfl; exact h hj) _ _

lemma ensureRing_ringAt (cfg : Config) (gen : ℕ → GenDraws) (i j : ℕ) (s : RingStore) :
    ringAt cfg gen (ensureRing cfg gen i s) j = ringAt cfg gen s j := by
  unfold ringAt ensureRing
  split
  · rfl
  · rename_i hi
    by_cases hji : j = i
    · subst hji
      simp [Function.update_same, if_neg hi]
    · simp [Function.update_noteq hji, Finset.mem_insert, hji]

lemma ensureRing_mem_self (cfg : Config) (gen : ℕ → GenDraws) (i : ℕ) (s : RingStore) :
    i ∈ (ensureRing cfg gen i s).keys := by
  rw [ensureRing_keys]
  exact Finset.mem_insert_self _ _

lemma ensureRing_data_self (cfg : Config) (gen : ℕ → GenDraws) (i : ℕ) (s : RingStore) :
    (ensureRing cfg gen i s).data i = ringAt cfg gen s i := by
  unfold ensureRing ringAt
  split
  · rfl
  · exact Function.update_same _ _ _

lemma foldl_ensureRing_keys (cfg : Config) (gen : ℕ → GenDraws) (l : List ℕ) (s : RingStore) :
    ((l.foldl (fun st i => ensureRing cfg gen i st) s).keys) = s.keys ∪ l.toFinset := by
  induction l generalizing s with
  | nil => simp
  | cons a l ih =>
    rw [List.foldl_cons, ih, ensureRing_keys, List.toFinset_cons]
    ext k
    simp [or_comm, or_assoc, or_left_comm]

lemma foldl_ensureRing_data_of_mem (cfg : Config) (gen : ℕ → GenDraws) (l : List ℕ)
    {j : ℕ} (s : RingStore) (hj : j ∈ s.keys) :
    ((l.foldl (fun st i => ensureRing cfg gen i st) s).data) j = s.data j := by
  induction l generalizing s with
  | nil => rfl
  | cons a l ih =>
    rw [List.foldl_cons, ih _ (by rw [ensureRing_keys]; exact Finset.mem_insert_of_mem hj),
      ensureRing_data_of_mem cfg gen s hj]

lemma ensureWindow_keys (cfg : Config) (gen : ℕ → GenDraws) (e : ℕ) (s : RingStore) :
    (ensureWindow cfg gen e s).keys = Finset.Icc (e - WINDOW_PAST) (e + WINDOW_FUTURE) := by
  unfold ensureWindow pruneRings
  ext k
  rw [Finset.mem_filter, foldl_ensureRing_keys, Finset.mem_union, List.mem_toFinset,
    List.mem_range'_1, Finset.mem_Icc]
  unfold WINDOW_PAST WINDOW_FUTURE
  constructor
  · rintro ⟨-, h1, h2⟩
    exact ⟨h1, h2⟩
  · rintro ⟨h1, h2⟩
    exact ⟨Or.inr ⟨h1, by omega⟩, h1, h2⟩

lemma ensureWindow_data_of_mem (cfg : Config) (gen : ℕ → GenDraws) (e : ℕ) {j : ℕ}
    (s : RingStore) (hj : j ∈ s.keys) : (ensureWindow cfg gen e s).data j = s.data j := by
  unfold ensureWindow pruneRings
  exact foldl_ensureRing_data_of_mem cfg gen _ s hj

lemma ensureWindow_mem_keys (cfg : Config) (gen : ℕ → GenDraws) (e k : ℕ) (s : RingStore) :
    k ∈ (ensureWindow cfg gen e s).keys ↔ e - WINDOW_PAST ≤ k ∧ k ≤ e + WINDOW_FUTURE := by
  rw [ensureWindow_keys, Finset.mem_Icc]

/-! ## Chain-detector characterization -/

/-- The pure skeleton of the detection loop over an alignment predicate. -/
def chainIdx (p : ℕ → Bool) : ℕ → ℕ → List ℕ
  | 0, _ => []
  | fuel + 1, idx => if p idx then idx :: chainIdx p fuel (idx + 1) else []

lemma detectAux_succ_snd (cfg : Config) (gen : ℕ → GenDraws) (ball : ℚ)
    (fuel idx : ℕ) (st : RingStore) :
    (detectAux cfg gen ball (fuel + 1) idx st).2 =
      if alignedB ball (ringAt cfg gen st idx) then
        idx :: (detectAux cfg gen ball fuel (idx + 1) (ensureRing cfg gen idx st)).2
      else [] := by
  rw [detectAux, ensureRing_data_self]
  split
  · rfl
  · rfl

lemma detectAux_snd (cfg : Config) (gen : ℕ → GenDraws) (ball : ℚ) :
    ∀ (fuel idx : ℕ) (st : RingStore),
      (detectAux cfg gen ball fuel idx st).2 =
        chainIdx (fun i => alignedB ball (ringAt cfg gen st i)) fuel idx := by
  intro fuel
  induction fuel with
  | zero => intro idx st; rfl
  | succ fuel ih =>
    intro idx st
    have hfun : (fun i => alignedB ball (ringAt cfg gen (ensureRing cfg gen idx st) i))
        = (fun i => alignedB ball (ringAt cfg gen st i)) := by
      funext i
      rw [ensureRing_ringAt]
    rw [detectAux_succ_snd, chainIdx]
    split
    · rw [ih (idx + 1) (ensureRing cfg gen idx st), hfun]
    · rfl

lemma chainIdx_length_le (p : ℕ → Bool) : ∀ (fuel idx : ℕ), (chainIdx p fuel idx).length ≤ fuel := by
  intro fuel
  induction fuel with
  | zero => intro idx; simp [chainIdx]
  | succ fuel ih =>
    intro idx
    unfold chainIdx
    split
    · simpa using ih (idx + 1)
    · simp

lemma chainIdx_getD (p : ℕ → Bool) :
    ∀ (fuel idx m : ℕ), m < (chainIdx p fuel idx).length →
      (chainIdx p fuel idx).getD m 0 = idx + m := by
  intro fuel
  induction fuel with
  | zero => intro idx m h; simp [chainIdx] at h
  | succ fuel ih =>
    intro idx m h
    unfold chainIdx at h ⊢
    by_cases hp : p idx
    · rw [if_pos hp] at h ⊢
      match m with
      | 0 => rfl
      | m + 1 =>
        simp only [List.length_cons, Nat.add_lt_add_iff_right] at h
        show (chainIdx p fuel (idx + 1)).getD m 0 = _
        rw [ih (idx + 1) m h]
        omega
    · rw [if_neg hp] at h
      simp at h

lemma chainIdx_aligned (p : ℕ → Bool) :
    ∀ (fuel idx m : ℕ), m < (chainIdx p fuel idx).length → p (idx + m) = true := by
  intro fuel
  induction fuel with
  | zero => intro idx m h; simp [chainIdx] at h
  | succ fuel ih =>
    intro idx m h
    unfold chainIdx at h
    by_cases hp : p idx
    · rw [if_pos hp] at h
      match m with
      | 0 => simpa using hp
      | m + 1 =>
        simp only [List.length_cons, Nat.add_lt_add_iff_right] at h
        have := ih (idx + 1) m h
        rwa [show idx + 1 + m = idx + (m + 1) by omega] at this
    · rw [if_neg hp] at h
      simp at h

lemma chainIdx_maximal (p : ℕ → Bool) :
    ∀ (fuel idx : ℕ), (chainIdx p fuel idx).length < fuel →
      p (idx + (chainIdx p fuel idx).length) = false := by
  intro fuel
  induction fuel with
  | zero => intro idx h; omega
  | succ fuel ih =>
    intro idx h
    unfold chainIdx at h ⊢
    by_cases hp : p idx
    · rw [if_pos hp] at h ⊢
      simp only [List.length_cons] at h ⊢
      have := ih (idx + 1) (by omega)
      rwa [show idx + 1 + (chainIdx p fuel (idx + 1)).length
        = idx + ((chainIdx p fuel (idx + 1)).length + 1) by omega] at this
    · rw [if_neg hp]
      simpa using hp

/-! ## Step-unfolding lemmas: which branch of the tick runs -/

lemma step_eq_of_critical (cfg : Config) (env : Env) (dt : ℚ) (s : GState)
    (h : criticalTimedOut cfg (stepEnter cfg env.gen dt s) = true) :
    step cfg env dt s = (stepEnter cfg env.gen dt s, .ended .pressureFail) := by
  unfold step
  rw [if_pos h]

lemma step_eq_of_obstacle (cfg : Config) (env : Env) (dt : ℚ) (s : GState)
    (hc : criticalTimedOut cfg (stepEnter cfg env.gen dt s) = false)
    (ho : obstacleHit cfg
      (stepKinematics cfg env.gen env.jitter dt (stepEnter cfg env.gen dt s)) = true) :
    step cfg env dt s =
      (stepKinematics cfg env.gen env.jitter dt (stepEnter cfg env.gen dt s),
        .ended .obstacle) := by
  unfold step
  rw [if_neg (by rw [hc]; exact Bool.false_ne_true), if_pos ho]

lemma step_eq_of_time (cfg : Config) (env : Env) (dt : ℚ) (s : GState)
    (hc : criticalTimedOut cfg (stepEnter cfg env.gen dt s) = false)
    (ho : obstacleHit cfg
      (stepKinematics cfg env.gen env.jitter dt (stepEnter cfg env.gen dt s)) = false)
    (ht : ringTimedOut cfg
      (stepTimers dt (stepKinematics cfg env.gen env.jitter dt (stepEnter cfg env.gen dt s)))
      = true) :
    step cfg env dt s =
      (stepTimers dt (stepKinematics cfg env.gen env.jitter dt (stepEnter cfg env.gen dt s)),
        .ended .time) := by
  unfold step
  rw [if_neg (by rw [hc]; exact Bool.false_ne_true),
    if_neg (by rw [ho]; exact Bool.false_ne_true), if_pos ht]

lemma step_eq_of_run (cfg : Config) (env : Env) (dt : ℚ) (s : GState)
    (hc : criticalTimedOut cfg (stepEnter cfg env.gen dt s) = false)
    (ho : obstacleHit cfg
      (stepKinematics cfg env.gen env.jitter dt (stepEnter cfg env.gen dt s)) = false)
    (ht : ringTimedOut cfg
      (stepTimers dt (stepKinematics cfg env.gen env.jitter dt (stepEnter cfg env.gen dt s)))
      = false) :
    step cfg env dt s =
      stepExitPhase cfg env.gen env.focusNext
        (detectPhase cfg env.gen
          (stepChainDecay dt
            (stepTimers dt
              (stepKinematics cfg env.gen env.jitter dt (stepEnter cfg env.gen dt s))))) := by
  unfold step
  rw [if_neg (by rw [hc]; exact Bool.false_ne_true),
    if_neg (by rw [ho]; exact Bool.false_ne_true),
    if_neg (by rw [ht]; exact Bool.false_ne_true)]

/-! ## Field bookkeeping across the phases -/

lemma stepEnter_untouched (cfg : Config) (gen : ℕ → GenDraws) (dt : ℚ) (s : GState) :
    (stepEnter cfg gen dt s).escaped = s.escaped ∧
    (stepEnter cfg gen dt s).score = s.score ∧
    (stepEnter cfg gen dt s).pendingEscapes = s.pendingEscapes ∧
    (stepEnter cfg gen dt s).escapeTweenProgress = s.escapeTweenProgress ∧
    (stepEnter cfg gen dt s).escapeTweenDuration = s.escapeTweenDuration ∧
    (stepEnter cfg gen dt s).escapeTargetEscaped = s.escapeTargetEscaped ∧
    (stepEnter cfg gen dt s).chain = s.chain ∧
    (stepEnter cfg gen dt s).chainTimer = s.chainTimer ∧
    (stepEnter cfg gen dt s).timeInRing = s.timeInRing ∧
    (stepEnter cfg gen dt s).maxRingTime = s.maxRingTime ∧
    (stepEnter cfg gen dt s).store = ensureWindow cfg gen s.escaped s.store :=
  ⟨rfl, rfl, rfl, rfl, rfl, rfl, rfl, rfl, rfl, rfl, rfl⟩

lemma stepKinematics_untouched (cfg : Config) (gen : ℕ → GenDraws) (jitter : ℕ → ℚ)
    (dt : ℚ) (s : GState) :
    (stepKinematics cfg gen jitter dt s).score = s.score ∧
    (stepKinematics cfg gen jitter dt s).chain = s.chain ∧
    (stepKinematics cfg gen jitter dt s).chainTimer = s.chainTimer ∧
    (stepKinematics cfg gen jitter dt s).pressure = s.pressure ∧
    (stepKinematics cfg gen jitter dt s).criticalActive = s.criticalActive ∧
    (stepKinematics cfg gen jitter dt s).criticalElapsed = s.criticalElapsed ∧
    (stepKinematics cfg gen jitter dt s).timeInRing = s.timeInRing ∧
    (stepKinematics cfg gen jitter dt s).timeSinceLastEscape = s.timeSinceLastEscape ∧
    (stepKinematics cfg gen jitter dt s).maxRingTime = s.maxRingTime :=
  ⟨rfl, rfl, rfl, rfl, rfl, rfl, rfl, rfl, rfl⟩

lemma stepKinematics_noCommit (cfg : Config) (gen : ℕ → GenDraws) (jitter : ℕ → ℚ)
    (dt : ℚ) (s : GState) (h : commitCond dt s = false) :
    (stepKinematics cfg gen jitter dt s).escaped = s.escaped ∧
    (stepKinematics cfg gen jitter dt s).pendingEscapes = s.pendingEscapes ∧
    (stepKinematics cfg gen jitter dt s).escapeTargetEscaped = s.escapeTargetEscaped := by
  refine ⟨?_, ?_, ?_⟩ <;> simp [stepKinematics, h]

lemma stepKinematics_commit (cfg : Config) (gen : ℕ → GenDraws) (jitter : ℕ → ℚ)
    (dt : ℚ) (s : GState) (h : commitCond dt s = true) :
    (stepKinematics cfg gen jitter dt s).escaped = s.escapeTargetEscaped ∧
    (stepKinematics cfg gen jitter dt s).pendingEscapes = [] := by
  refine ⟨?_, ?_⟩ <;> simp [stepKinematics, h]

lemma rotateRings_of_pending (jitter : ℕ → ℚ) (dt : ℚ) (s : GState)
    (hpe : s.pendingEscapes ≠ []) : rotateRings jitter dt s = s.store := by
  unfold rotateRings
  rw [if_neg]
  simp [List.isEmpty_iff, hpe]

lemma stepKinematics_store_inflight (cfg : Config) (gen : ℕ → GenDraws) (jitter : ℕ → ℚ)
    (dt : ℚ) (s : GState) (hpe : s.pendingEscapes ≠ []) (h : commitCond dt s = false) :
    (stepKinematics cfg gen jitter dt s).store = s.store := by
  simp [stepKinematics, h, rotateRings_of_pending jitter dt s hpe]

lemma stepTimers_untouched (dt : ℚ) (s : GState) :
    (stepTimers dt s).escaped = s.escaped ∧
    (stepTimers dt s).score = s.score ∧
    (stepTimers dt s).pendingEscapes = s.pendingEscapes ∧
    (stepTimers dt s).escapeTargetEscaped = s.escapeTargetEscaped ∧
    (stepTimers dt s).store = s.store ∧
    (stepTimers dt s).chain = s.chain ∧
    (stepTimers dt s).chainTimer = s.chainTimer ∧
    (stepTimers dt s).pressure = s.pressure ∧
    (stepTimers dt s).criticalActive = s.criticalActive ∧
    (stepTimers dt s).criticalElapsed = s.criticalElapsed ∧
    (stepTimers dt s).ballAngle = s.ballAngle ∧
    (stepTimers dt s).maxRingTime = s.maxRingTime :=
  ⟨rfl, rfl, rfl, rfl, rfl, rfl, rfl, rfl, rfl, rfl, rfl, rfl⟩

lemma stepChainDecay_untouched (dt : ℚ) (s : GState) :
    (stepChainDecay dt s).escaped = s.escaped ∧
    (stepChainDecay dt s).score = s.score ∧
    (stepChainDecay dt s).pendingEscapes = s.pendingEscapes ∧
    (stepChainDecay dt s).escapeTargetEscaped = s.escapeTargetEscaped ∧
    (stepChainDecay dt s).store = s.store ∧
    (stepChainDecay dt s).pressure = s.pressure ∧
    (stepChainDecay dt s).criticalActive = s.criticalActive ∧
    (stepChainDecay dt s).criticalElapsed = s.criticalElapsed ∧
    (stepChainDecay dt s).ballAngle = s.ballAngle ∧
    (stepChainDecay dt s).timeInRing = s.timeInRing ∧
    (stepChainDecay dt s).maxRingTime = s.maxRingTime :=
  ⟨rfl, rfl, rfl, rfl, rfl, rfl, rfl, rfl, rfl, rfl, rfl⟩

lemma detectPhase_of_pending (cfg : Config) (gen : ℕ → GenDraws) (s : GState)
    (h : s.pendingEscapes ≠ []) : detectPhase cfg gen s = s := by
  unfold detectPhase
  rw [if_neg]
  simp [List.isEmpty_iff, h]

lemma stepExitPhase_fst (cfg : Config) (gen : ℕ → GenDraws) (focusNext : ℚ) (s : GState) :
    (stepExitPhase cfg gen focusNext s).1 =
      { s with focus := focusNext,
               store := ensureWindow cfg gen s.escaped s.store } := rfl

/-- Ticks that fall entirely inside a transition (progress does not reach 1)
freeze the interesting state: `escaped`, the pending buffer, the target and
the score are unchanged, and the gap center of every ring that survives the
tick is untouched — whatever way the tick exits. -/
lemma step_inflight (cfg : Config) (env : Env) (dt : ℚ) (s : GState)
    (hpe : s.pendingEscapes ≠ [])
    (hprog : clamp (s.escapeTweenProgress + dt / s.escapeTweenDuration) 0 1 < 1) :
    (step cfg env dt s).1.escaped = s.escaped ∧
    (step cfg env dt s).1.pendingEscapes = s.pendingEscapes ∧
    (step cfg env dt s).1.escapeTargetEscaped = s.escapeTargetEscaped ∧
    (step cfg env dt s).1.score = s.score ∧
    (∀ i, i ∈ s.store.keys → i ∈ (step cfg env dt s).1.store.keys →
      ((step cfg env dt s).1.store.data i).gapCenter = (s.store.data i).gapCenter) := by
  have hcc : commitCond dt (stepEnter cfg env.gen dt s) = false := by
    show (!s.pendingEscapes.isEmpty &&
      decide (1 ≤ clamp (s.escapeTweenProgress + dt / s.escapeTweenDuration) 0 1)) = false
    rw [decide_eq_false (not_le.mpr hprog)]
    exact Bool.and_false _
  have hpe1 : (stepEnter cfg env.gen dt s).pendingEscapes ≠ [] := hpe
  cases hct : criticalTimedOut cfg (stepEnter cfg env.gen dt s) with
  | true =>
    rw [step_eq_of_critical cfg env dt s hct]
    refine ⟨rfl, rfl, rfl, rfl, fun i hi _ => ?_⟩
    show ((ensureWindow cfg env.gen s.escaped s.store).data i).gapCenter = _
    rw [ensureWindow_data_of_mem cfg env.gen _ s.store hi]
  | false =>
    obtain ⟨hk1, hk2, hk3⟩ := stepKinematics_noCommit cfg env.gen env.jitter dt
      (stepEnter cfg env.gen dt s) hcc
    have hkst := stepKinematics_store_inflight cfg env.gen env.jitter dt
      (stepEnter cfg env.gen dt s) hpe1 hcc
    have hst1 : (stepEnter cfg env.gen dt s).store = ensureWindow cfg env.gen s.escaped s.store :=
      rfl
    cases hob : obstacleHit cfg
        (stepKinematics cfg env.gen env.jitter dt (stepEnter cfg env.gen dt s)) with
    | true =>
      rw [step_eq_of_obstacle cfg env dt s hct hob]
      refine ⟨hk1, hk2, hk3, rfl, fun i hi _ => ?_⟩
      rw [hkst, hst1, ensureWindow_data_of_mem cfg env.gen _ s.store hi]
    | false =>
      cases hrt : ringTimedOut cfg (stepTimers dt
          (stepKinematics cfg env.gen env.jitter dt (stepEnter cfg env.gen dt s))) with
      | true =>
        rw [step_eq_of_time cfg env dt s hct hob hrt]
        refine ⟨hk1, hk2, hk3, rfl, fun i hi _ => ?_⟩
        show (((stepKinematics cfg env.gen env.jitter dt
          (stepEnter cfg env.gen dt s)).store).data i).gapCenter = _
        rw [hkst, hst1, ensureWindow_data_of_mem cfg env.gen _ s.store hi]
      | false =>
        rw [step_eq_of_run cfg env dt s hct hob hrt]
        have hpe4 : (stepChainDecay dt (stepTimers dt
            (stepKinematics cfg env.gen env.jitter dt
              (stepEnter cfg env.gen dt s)))).pendingEscapes ≠ [] := by
          show (stepKinematics cfg env.gen env.jitter dt
            (stepEnter cfg env.gen dt s)).pendingEscapes ≠ []
          rw [hk2]
          exact hpe
        rw [detectPhase_of_pending cfg env.gen _ hpe4, stepExitPhase_fst]
        refine ⟨hk1, hk2, hk3, rfl, fun i hi hi' => ?_⟩
        have hesc4 : (stepChainDecay dt (stepTimers dt
            (stepKinematics cfg env.gen env.jitter dt
              (stepEnter cfg env.gen dt s)))).escaped = s.escaped := hk1
        have hst4 : (stepChainDecay dt (stepTimers dt
            (stepKinematics cfg env.gen env.jitter dt
              (stepEnter cfg env.gen dt s)))).store
            = ensureWindow cfg env.gen s.escaped s.store := by
          show (stepKinematics cfg env.gen env.jitter dt
            (stepEnter cfg env.gen dt s)).store = _
          rw [hkst, hst1]
        simp only [hesc4, hst4] at hi' ⊢
        rw [ensureWindow_data_of_mem cfg env.gen s.escaped _ (by
          rw [ensureWindow_mem_keys]
          rw [ensureWindow_mem_keys] at hi'
          exact hi'), ensureWindow_data_of_mem cfg env.gen s.escaped s.store hi]

lemma processEscape_fields (cfg : Config) (gen : ℕ → GenDraws) (s : GState) (L : List ℕ) :
    (processEscape cfg gen s L).escaped = s.escaped ∧
    (processEscape cfg gen s L).score = s.score + L.length ∧
    (processEscape cfg gen s L).pendingEscapes = L ∧
    (processEscape cfg gen s L).chainTimer = 1.15 * (L.length : ℚ) ∧
    (processEscape cfg gen s L).chain = min 9 (s.chain + L.length) ∧
    (processEscape cfg gen s L).escapeTargetEscaped = s.escaped + L.length ∧
    (processEscape cfg gen s L).criticalActive = false ∧
    (processEscape cfg gen s L).pressure
      = (if s.criticalActive then 0 else max 0 (s.pressure - cfg.ab.partialResetAmount)) :=
  ⟨rfl, rfl, rfl, rfl, rfl, rfl, rfl, rfl⟩

lemma detectPhase_no_chain (cfg : Config) (gen : ℕ → GenDraws) (s : GState)
    (h : s.pendingEscapes = [])
    (hres : (detectChain cfg gen s.ballAngle s.escaped s.store).2 = []) :
    detectPhase cfg gen s =
      { s with store := (detectChain cfg gen s.ballAngle s.escaped s.store).1 } := by
  unfold detectPhase
  rw [if_pos (by simp [h]), if_pos (by simp [hres])]

lemma detectPhase_chain (cfg : Config) (gen : ℕ → GenDraws) (s : GState)
    (h : s.pendingEscapes = [])
    (hres : (detectChain cfg gen s.ballAngle s.escaped s.store).2 ≠ []) :
    detectPhase cfg gen s =
      processEscape cfg gen
        { s with store := (detectChain cfg gen s.ballAngle s.escaped s.store).1 }
        (detectChain cfg gen s.ballAngle s.escaped s.store).2 := by
  unfold detectPhase
  rw [if_pos (by simp [h]), if_neg (by simp [hres])]

/-- The tick on which a pending transition's progress reaches 1 (and the
critical timeout does not fire first) commits `escaped := escapeTargetEscaped`;
and if no new escape is scored that same tick, the pending buffer ends the
tick empty. -/
lemma step_commit (cfg : Config) (env : Env) (dt : ℚ) (s : GState)
    (hpe : s.pendingEscapes ≠ [])
    (hprog : 1 ≤ clamp (s.escapeTweenProgress + dt / s.escapeTweenDuration) 0 1)
    (hct : criticalTimedOut cfg (stepEnter cfg env.gen dt s) = false) :
    (step cfg env dt s).1.escaped = s.escapeTargetEscaped ∧
    ((step cfg env dt s).1.score = s.score → (step cfg env dt s).1.pendingEscapes = []) := by
  have hcc : commitCond dt (stepEnter cfg env.gen dt s) = true := by
    show (!s.pendingEscapes.isEmpty &&
      decide (1 ≤ clamp (s.escapeTweenProgress + dt / s.escapeTweenDuration) 0 1)) = true
    rw [decide_eq_true hprog, Bool.and_true]
    simp [List.isEmpty_iff, hpe]
  obtain ⟨hk1, hk2⟩ := stepKinematics_commit cfg env.gen env.jitter dt
    (stepEnter cfg env.gen dt s) hcc
  cases hob : obstacleHit cfg
      (stepKinematics cfg env.gen env.jitter dt (stepEnter cfg env.gen dt s)) with
  | true =>
    rw [step_eq_of_obstacle cfg env dt s hct hob]
    exact ⟨hk1, fun _ => hk2⟩
  | false =>
    cases hrt : ringTimedOut cfg (stepTimers dt
        (stepKinematics cfg env.gen env.jitter dt (stepEnter cfg env.gen dt s))) with
    | true =>
      rw [step_eq_of_time cfg env dt s hct hob hrt]
      exact ⟨hk1, fun _ => hk2⟩
    | false =>
      rw [step_eq_of_run cfg env dt s hct hob hrt]
      have hpe4 : (stepChainDecay dt (stepTimers dt
          (stepKinematics cfg env.gen env.jitter dt
            (stepEnter cfg env.gen dt s)))).pendingEscapes = [] := hk2
      by_cases hres : (detectChain cfg env.gen
          (stepChainDecay dt (stepTimers dt
            (stepKinematics cfg env.gen env.jitter dt
              (stepEnter cfg env.gen dt s)))).ballAngle
          (stepChainDecay dt (stepTimers dt
            (stepKinematics cfg env.gen env.jitter dt
              (stepEnter cfg env.gen dt s)))).escaped
          (stepChainDecay dt (stepTimers dt
            (stepKinematics cfg env.gen env.jitter dt
              (stepEnter cfg env.gen dt s)))).store).2 = []
      · rw [detectPhase_no_chain cfg env.gen _ hpe4 hres, stepExitPhase_fst]
        exact ⟨hk1, fun _ => hk2⟩
      · rw [detectPhase_chain cfg env.gen _ hpe4 hres, stepExitPhase_fst]
        refine ⟨hk1, fun hsc => ?_⟩
        exfalso
        have hlen : (detectChain cfg env.gen
            (stepChainDecay dt (stepTimers dt
              (stepKinematics cfg env.gen env.jitter dt
                (stepEnter cfg env.gen dt s)))).ballAngle
            (stepChainDecay dt (stepTimers dt
              (stepKinematics cfg env.gen env.jitter dt
                (stepEnter cfg env.gen dt s)))).escaped
            (stepChainDecay dt (stepTimers dt
              (stepKinematics cfg env.gen env.jitter dt
                (stepEnter cfg env.gen dt s)))).store).2.length ≠ 0 :=
          fun h0 => hres (List.length_eq_zero.mp h0)
        have : s.score + (detectChain cfg env.gen _ _ _).2.length = s.score := hsc
        omega

/-! ## Concrete configurations and stores used by the examples -/

/-- A normal-mode endless run in cohort A with round layout constants. -/
def cfgA : Config := ⟨false, Mode.endless, none, getABParams .A, 100, 50⟩

def zeroDraws : GenDraws := ⟨0, 0, 0, 0, 0, 0⟩

/-- A ring with `gapCenter = 0`, `gapWidth = 0.5` (the alignment example of
the spec). -/
def ring00 : Ring := ⟨0, 0.5, 0, 0, false, 0⟩

/-- Rings 0..3 with rings 0, 1, 3 aligned to ball angle 0 and ring 2 not
(its gap center is π). -/
def scenarioStore : RingStore :=
  ⟨{0, 1, 2, 3}, fun i => ⟨if i = 2 then jsPI else 0, 0.5, 0, 0, false, 0⟩⟩

lemma alignedB_true_iff {ball : ℚ} {r : Ring} (h1 : 0.08 ≤ r.gapWidth)
    (h2 : r.gapWidth ≤ 0.95) :
    alignedB ball r = true ↔ |angDiff ball r.gapCenter| ≤ r.gapWidth / 2 := by
  unfold alignedB effectiveGapWidth
  rw [clamp_eq_self h1 h2, decide_eq_true_eq]

lemma angDiff_self (a : ℚ) : angDiff a a = 0 := by
  have hpi := jsPI_pos
  unfold angDiff
  rw [sub_self]
  exact angNorm_eq_self (by linarith) (by linarith)

lemma ringAt_scenario (g : ℕ → GenDraws) (i : ℕ) (hi : i ∈ ({0, 1, 2, 3} : Finset ℕ)) :
    ringAt cfgA g scenarioStore i = ⟨if i = 2 then jsPI else 0, 0.5, 0, 0, false, 0⟩ := by
  unfold ringAt scenarioStore
  rw [if_pos hi]

lemma alignedB_zero_gap0 : alignedB 0 (⟨0, 0.5, 0, 0, false, 0⟩ : Ring) = true := by
  rw [alignedB_true_iff (by norm_num) (by norm_num)]
  show |angDiff 0 0| ≤ (0.5 : ℚ) / 2
  rw [angDiff_self]
  norm_num

lemma alignedB_zero_gapPI : alignedB 0 (⟨jsPI, 0.5, 0, 0, false, 0⟩ : Ring) = false := by
  rw [Bool.eq_false_iff, Ne, alignedB_true_iff (by norm_num) (by norm_num)]
  show ¬ (|angDiff 0 jsPI| ≤ (0.5 : ℚ) / 2)
  have hpi := jsPI_pos
  unfold angDiff
  rw [zero_sub, angNorm_eq_self (by linarith) (by linarith), abs_neg, abs_of_pos hpi]
  norm_num [jsPI]

lemma detect_scenario_eq :
    (detectChain cfgA (fun _ => zeroDraws) 0 0 scenarioStore).2 = [0, 1] := by
  rw [detectChain, detectAux_snd]
  have hp0 : alignedB 0 (ringAt cfgA (fun _ => zeroDraws) scenarioStore 0) = true := by
    rw [ringAt_scenario _ 0 (by decide)]
    simpa using alignedB_zero_gap0
  have hp1 : alignedB 0 (ringAt cfgA (fun _ => zeroDraws) scenarioStore 1) = true := by
    rw [ringAt_scenario _ 1 (by decide)]
    simpa using alignedB_zero_gap0
  have hp2 : alignedB 0 (ringAt cfgA (fun _ => zeroDraws) scenarioStore 2) = false := by
    rw [ringAt_scenario _ 2 (by decide)]
    simpa using alignedB_zero_gapPI
  have e6 : chainIdx (fun i => alignedB 0 (ringAt cfgA (fun _ => zeroDraws) scenarioStore i)) 6 0
      = if alignedB 0 (ringAt cfgA (fun _ => zeroDraws) scenarioStore 0) then
          0 :: chainIdx (fun i => alignedB 0 (ringAt cfgA (fun _ => zeroDraws) scenarioStore i)) 5 1
        else [] := rfl
  have e5 : chainIdx (fun i => alignedB 0 (ringAt cfgA (fun _ => zeroDraws) scenarioStore i)) 5 1
      = if alignedB 0 (ringAt cfgA (fun _ => zeroDraws) scenarioStore 1) then
          1 :: chainIdx (fun i => alignedB 0 (ringAt cfgA (fun _ => zeroDraws) scenarioStore i)) 4 2
        else [] := rfl
  have e4 : chainIdx (fun i => alignedB 0 (ringAt cfgA (fun _ => zeroDraws) scenarioStore i)) 4 2
      = if alignedB 0 (ringAt cfgA (fun _ => zeroDraws) scenarioStore 2) then
          2 :: chainIdx (fun i => alignedB 0 (ringAt cfgA (fun _ => zeroDraws) scenarioStore i)) 3 3
        else [] := rfl
  rw [e6, if_pos hp0, e5, if_pos hp1, e4, if_neg (by simp [hp2])]

/-- **C1**: chain detection, run only while no transition is pending, returns
exactly the maximal run of consecutive aligned ring indices starting at
`escapedIndex`, capped at 6, stopping at the first misaligned ring, where
alignment is `|angDiff(ballAngle, gapCenter)| ≤ gapWidth/2` (for the in-range
gap widths the source generates); concretely, for `gapCenter = 0`,
`gapWidth = 0.5` a ball at angle 0.24 is aligned and one at 0.26 is not, and
with rings 0,1 aligned, ring 2 misaligned and ring 3 aligned, detection from
`escapedIndex = 0` yields exactly `[0, 1]`. -/
theorem chain_detection_spec :
    (∀ (cfg : Config) (gen : ℕ → GenDraws) (ball : ℚ) (escaped : ℕ) (st : RingStore),
      (detectChain cfg gen ball escaped st).2.length ≤ 6 ∧
      (∀ m, m < (detectChain cfg gen ball escaped st).2.length →
        (detectChain cfg gen ball escaped st).2.getD m 0 = escaped + m ∧
        alignedB ball (ringAt cfg gen st (escaped + m)) = true) ∧
      ((detectChain cfg gen ball escaped st).2.length < 6 →
        alignedB ball
          (ringAt cfg gen st (escaped + (detectChain cfg gen ball escaped st).2.length))
          = false)) ∧
    (∀ (ball : ℚ) (r : Ring), 0.08 ≤ r.gapWidth → r.gapWidth ≤ 0.95 →
      (alignedB ball r = true ↔ |angDiff ball r.gapCenter| ≤ r.gapWidth / 2)) ∧
    alignedB 0.24 ring00 = true ∧
    alignedB 0.26 ring00 = false ∧
    (∀ (cfg : Config) (env : Env) (dt : ℚ) (s : GState),
      s.pendingEscapes ≠ [] →
      clamp (s.escapeTweenProgress + dt / s.escapeTweenDuration) 0 1 < 1 →
      (step cfg env dt s).1.score = s.score) ∧
    (detectChain cfgA (fun _ => zeroDraws) 0 0 scenarioStore).2 = [0, 1] := by
  have hpi := jsPI_pos
  refine ⟨?_, ?_, ?_, ?_, ?_, detect_scenario_eq⟩
  · intro cfg gen ball escaped st
    rw [detectChain, detectAux_snd]
    refine ⟨chainIdx_length_le _ 6 escaped, fun m hm => ⟨chainIdx_getD _ 6 escaped m hm, ?_⟩,
      fun hlt => ?_⟩
    · simpa using chainIdx_aligned _ 6 escaped m hm
    · simpa using chainIdx_maximal _ 6 escaped hlt
  · intro ball r h1 h2
    exact alignedB_true_iff h1 h2
  · rw [alignedB_true_iff (by norm_num [ring00]) (by norm_num [ring00])]
    show |angDiff 0.24 0| ≤ (0.5 : ℚ) / 2
    unfold angDiff
    rw [sub_zero, angNorm_eq_self (by norm_num [jsPI]) (by norm_num [jsPI]),
      abs_of_nonneg (by norm_num)]
    norm_num
  · rw [Bool.eq_false_iff, Ne, alignedB_true_iff (by norm_num [ring00]) (by norm_num [ring00])]
    show ¬ (|angDiff 0.26 0| ≤ (0.5 : ℚ) / 2)
    unfold angDiff
    rw [sub_zero, angNorm_eq_self (by norm_num [jsPI]) (by norm_num [jsPI]),
      abs_of_nonneg (by norm_num)]
    norm_num
  · intro cfg env dt s hpe hprog
    exact (step_inflight cfg env dt s hpe hprog).2.2.2.1

/-- A plausible concrete ring store: the window `0..4` around a fresh run. -/
def baseStore : RingStore :=
  ⟨{0, 1, 2, 3, 4}, fun _ => ⟨0, 0.56, 0.4, 0, false, 0⟩⟩

/-- A concrete baseline run state used by the example instantiations. -/
def baseState : GState where
  store := baseStore
  escaped := 0
  ballAngle := 0
  ballDir := 1
  orbitSpeed := 0
  score := 0
  chain := 1
  chainTimer := 0
  timeSinceLastEscape := 999
  pressure := 0
  criticalActive := false
  criticalStartTime := 0
  criticalElapsed := 0
  timeInRing := 0
  maxRingTime := 7.5
  perfectStreak := 0
  bestPerfectStreak := 0
  pendingEscapes := []
  escapeTweenProgress := 0
  escapeTweenDuration := 0
  escapeTargetEscaped := 0
  focus := 0
  now := 0
  tapsInWindow := []
  sprintCompleted := false
  dailyCompleted := false

/-- A state mid-way through a single-ring escape transition. -/
def inflightState : GState :=
  { baseState with pendingEscapes := [0], escapeTweenDuration := 0.12,
                   escapeTweenProgress := 0, escapeTargetEscaped := 1 }

/-- A trivial tick environment: zero draws, zero jitter, focus stays at 0. -/
def env0 : Env := ⟨fun _ => zeroDraws, fun _ => 0, 0⟩

/-- Witness for C1: the boundary-alignment reading and the in-flight freeze
instantiated at concrete inputs, with every hypothesis discharged. -/
theorem chain_detection_spec_witness :
    ((0.08 : ℚ) ≤ ring00.gapWidth ∧ ring00.gapWidth ≤ 0.95) ∧
    (alignedB 0.24 ring00 = true ↔ |angDiff 0.24 ring00.gapCenter| ≤ ring00.gapWidth / 2) ∧
    inflightState.pendingEscapes ≠ [] ∧
    clamp (inflightState.escapeTweenProgress
      + (1 / 100) / inflightState.escapeTweenDuration) 0 1 < 1 ∧
    (step cfgA env0 (1 / 100) inflightState).1.score = inflightState.score := by
  have h1 : (0.08 : ℚ) ≤ ring00.gapWidth := by norm_num [ring00]
  have h2 : ring00.gapWidth ≤ (0.95 : ℚ) := by norm_num [ring00]
  have hne : inflightState.pendingEscapes ≠ [] := by
    show ([0] : List ℕ) ≠ []
    simp
  have hcl : clamp (inflightState.escapeTweenProgress
      + (1 / 100) / inflightState.escapeTweenDuration) 0 1 < 1 := by
    show clamp (0 + (1 / 100 : ℚ) / (0.12 : ℚ)) 0 1 < 1
    rw [clamp_eq_self (by norm_num) (by norm_num)]
    norm_num
  exact ⟨⟨h1, h2⟩, chain_detection_spec.2.1 0.24 ring00 h1 h2, hne, hcl,
    chain_detection_spec.2.2.2.2.1 cfgA env0 (1 / 100) inflightState hne hcl⟩

/-! ## C4: windowing invariant -/

lemma rotateRings_keys (jitter : ℕ → ℚ) (dt : ℚ) (s : GState) :
    (rotateRings jitter dt s).keys = s.store.keys := by
  unfold rotateRings
  split
  · rfl
  · rfl

lemma stepKinematics_window (cfg : Config) (gen : ℕ → GenDraws) (jitter : ℕ → ℚ)
    (dt : ℚ) (s : GState)
    (h : s.store.keys = Finset.Icc (s.escaped - WINDOW_PAST) (s.escaped + WINDOW_FUTURE)) :
    (stepKinematics cfg gen jitter dt s).store.keys
      = Finset.Icc ((stepKinematics cfg gen jitter dt s).escaped - WINDOW_PAST)
        ((stepKinematics cfg gen jitter dt s).escaped + WINDOW_FUTURE) := by
  cases hcc : commitCond dt s with
  | true =>
    have he : (stepKinematics cfg gen jitter dt s).escaped = s.escapeTargetEscaped :=
      (stepKinematics_commit cfg gen jitter dt s hcc).1
    have hs : (stepKinematics cfg gen jitter dt s).store
        = ensureWindow cfg gen s.escapeTargetEscaped (rotateRings jitter dt s) := by
      simp [stepKinematics, hcc]
    rw [hs, he, ensureWindow_keys]
  | false =>
    have he : (stepKinematics cfg gen jitter dt s).escaped = s.escaped :=
      (stepKinematics_noCommit cfg gen jitter dt s hcc).1
    have hs : (stepKinematics cfg gen jitter dt s).store = rotateRings jitter dt s := by
      simp [stepKinematics, hcc]
    rw [hs, he, rotateRings_keys, h]

/-- **C4**: after the windowing pass, the Ring Store holds a ring for every
index in `[max(0, escaped - 2), escaped + 4]` and for no other index — both as
a contract of `ensureWindow` itself and at the end of every tick (whatever way
the tick exits, and so in particular on ticks with no pending transition). -/
theorem window_invariant_spec :
    (∀ (cfg : Config) (gen : ℕ → GenDraws) (e : ℕ) (st : RingStore),
      (ensureWindow cfg gen e st).keys = Finset.Icc (e - 2) (e + 4)) ∧
    (∀ (cfg : Config) (env : Env) (dt : ℚ) (s : GState),
      (step cfg env dt s).1.store.keys
        = Finset.Icc ((step cfg env dt s).1.escaped - 2)
            ((step cfg env dt s).1.escaped + 4)) := by
  constructor
  · intro cfg gen e st
    exact ensureWindow_keys cfg gen e st
  · intro cfg env dt s
    cases hct : criticalTimedOut cfg (stepEnter cfg env.gen dt s) with
    | true =>
      rw [step_eq_of_critical cfg env dt s hct]
      show (ensureWindow cfg env.gen s.escaped s.store).keys = _
      rw [ensureWindow_keys]
      rfl
    | false =>
      have hwin1 : (stepEnter cfg env.gen dt s).store.keys
          = Finset.Icc ((stepEnter cfg env.gen dt s).escaped - WINDOW_PAST)
              ((stepEnter cfg env.gen dt s).escaped + WINDOW_FUTURE) := by
        show (ensureWindow cfg env.gen s.escaped s.store).keys = _
        rw [ensureWindow_keys]
        rfl
      cases hob : obstacleHit cfg
          (stepKinematics cfg env.gen env.jitter dt (stepEnter cfg env.gen dt s)) with
      | true =>
        rw [step_eq_of_obstacle cfg env dt s hct hob]
        exact stepKinematics_window cfg env.gen env.jitter dt _ hwin1
      | false =>
        cases hrt : ringTimedOut cfg (stepTimers dt
            (stepKinematics cfg env.gen env.jitter dt (stepEnter cfg env.gen dt s))) with
        | true =>
          rw [step_eq_of_time cfg env dt s hct hob hrt]
          exact stepKinematics_window cfg env.gen env.jitter dt _ hwin1
        | false =>
          rw [step_eq_of_run cfg env dt s hct hob hrt, stepExitPhase_fst]
          show (ensureWindow cfg env.gen _ _).keys = _
          rw [ensureWindow_keys]
          rfl

/-! ## C7: pressure stays in `[0,1]` -/

lemma processEscape_pressure (cfg : Config) (gen : ℕ → GenDraws) (s : GState) (L : List ℕ)
    (h0 : 0 ≤ s.pressure) (h1 : s.pressure ≤ 1) (hpr : 0 ≤ cfg.ab.partialResetAmount) :
    0 ≤ (processEscape cfg gen s L).pressure ∧ (processEscape cfg gen s L).pressure ≤ 1 := by
  have hp : (processEscape cfg gen s L).pressure
      = (if s.criticalActive then 0 else max 0 (s.pressure - cfg.ab.partialResetAmount)) :=
    (processEscape_fields cfg gen s L).2.2.2.2.2.2.2
  rw [hp]
  split
  · norm_num
  · exact ⟨le_max_left _ _, max_le (by norm_num) (by linarith)⟩

lemma detectPhase_pressure (cfg : Config) (gen : ℕ → GenDraws) (s : GState)
    (h0 : 0 ≤ s.pressure) (h1 : s.pressure ≤ 1) (hpr : 0 ≤ cfg.ab.partialResetAmount) :
    0 ≤ (detectPhase cfg gen s).pressure ∧ (detectPhase cfg gen s).pressure ≤ 1 := by
  by_cases hpend : s.pendingEscapes = []
  · by_cases hres : (detectChain cfg gen s.ballAngle s.escaped s.store).2 = []
    · rw [detectPhase_no_chain cfg gen s hpend hres]
      exact ⟨h0, h1⟩
    · rw [detectPhase_chain cfg gen s hpend hres]
      exact processEscape_pressure cfg gen _ _ h0 h1 hpr
  · rw [detectPhase_of_pending cfg gen s hpend]
    exact ⟨h0, h1⟩

lemma stepEnter_pressure_mem (cfg : Config) (gen : ℕ → GenDraws) (dt : ℚ) (s : GState) :
    0 ≤ (stepEnter cfg gen dt s).pressure ∧ (stepEnter cfg gen dt s).pressure ≤ 1 :=
  clamp_mem_unit _

lemma step_pressure_mem (cfg : Config) (env : Env) (dt : ℚ) (s : GState)
    (hpr : 0 ≤ cfg.ab.partialResetAmount) :
    0 ≤ (step cfg env dt s).1.pressure ∧ (step cfg env dt s).1.pressure ≤ 1 := by
  have hp1 := stepEnter_pressure_mem cfg env.gen dt s
  cases hct : criticalTimedOut cfg (stepEnter cfg env.gen dt s) with
  | true =>
    rw [step_eq_of_critical cfg env dt s hct]
    exact hp1
  | false =>
    have hk : (stepKinematics cfg env.gen env.jitter dt (stepEnter cfg env.gen dt s)).pressure
        = (stepEnter cfg env.gen dt s).pressure :=
      (stepKinematics_untouched cfg env.gen env.jitter dt _).2.2.2.1
    cases hob : obstacleHit cfg
        (stepKinematics cfg env.gen env.jitter dt (stepEnter cfg env.gen dt s)) with
    | true =>
      rw [step_eq_of_obstacle cfg env dt s hct hob]
      rw [hk]
      exact hp1
    | false =>
      cases hrt : ringTimedOut cfg (stepTimers dt
          (stepKinematics cfg env.gen env.jitter dt (stepEnter cfg env.gen dt s))) with
      | true =>
        rw [step_eq_of_time cfg env dt s hct hob hrt]
        show 0 ≤ (stepKinematics cfg env.gen env.jitter dt
          (stepEnter cfg env.gen dt s)).pressure ∧ _
        rw [hk]
        exact hp1
      | false =>
        rw [step_eq_of_run cfg env dt s hct hob hrt, stepExitPhase_fst]
        have h4 : (stepChainDecay dt (stepTimers dt
            (stepKinematics cfg env.gen env.jitter dt
              (stepEnter cfg env.gen dt s)))).pressure
            = (stepEnter cfg env.gen dt s).pressure := hk
        exact detectPhase_pressure cfg env.gen _ (h4 ▸ hp1.1) (h4 ▸ hp1.2) hpr

/-- **C7**: for every sequence of taps and ticks (any `dt` values, any
escapes, critical or normal) from a fresh reset, the pressure scalar lies in
`[0, 1]` after each operation. -/
theorem pressure_clamped_spec :
    ∀ (cfg : Config) (s : GState), 0 ≤ cfg.ab.partialResetAmount →
      Reachable cfg s → 0 ≤ s.pressure ∧ s.pressure ≤ 1 := by
  intro cfg s hpr h
  induction h with
  | reset gen ballU t0 _ _ _ =>
    exact ⟨le_refl 0, (by norm_num : (0 : ℚ) ≤ 1)⟩
  | tap s _ _ =>
    exact clamp_mem_unit _
  | tick s s' env dt _ _ _ hstep _ =>
    have := step_pressure_mem cfg env dt s hpr
    rwa [hstep] at this

/-- Witness for C7: the invariant holds at a concrete freshly reset state in
cohort A. -/
theorem pressure_clamped_spec_witness :
    (0 : ℚ) ≤ cfgA.ab.partialResetAmount ∧
    0 ≤ (resetGame cfgA (fun _ => zeroDraws) 0 0).pressure ∧
    (resetGame cfgA (fun _ => zeroDraws) 0 0).pressure ≤ 1 := by
  have hpr : (0 : ℚ) ≤ cfgA.ab.partialResetAmount := by
    norm_num [cfgA, getABParams]
  have hreach : Reachable cfgA (resetGame cfgA (fun _ => zeroDraws) 0 0) :=
    Reachable.reset (fun _ => zeroDraws) 0 0
      (fun _ => by norm_num [ValidDraws, zeroDraws]) le_rfl (by norm_num)
  have := pressure_clamped_spec cfgA _ hpr hreach
  exact ⟨hpr, this.1, this.2⟩

/-! ## C2 / C3: exit characterization of a tick -/

lemma stepExitPhase_snd (cfg : Config) (gen : ℕ → GenDraws) (focusNext : ℚ) (s : GState) :
    (stepExitPhase cfg gen focusNext s).2
      = if s.sprintCompleted || s.dailyCompleted then StepExit.completed else StepExit.ok := rfl

lemma step_exit_pressureFail_iff (cfg : Config) (env : Env) (dt : ℚ) (s : GState) :
    (step cfg env dt s).2 = StepExit.ended EndReason.pressureFail
      ↔ criticalTimedOut cfg (stepEnter cfg env.gen dt s) = true := by
  cases hct : criticalTimedOut cfg (stepEnter cfg env.gen dt s) with
  | true =>
    rw [step_eq_of_critical cfg env dt s hct]
    simp
  | false =>
    cases hob : obstacleHit cfg
        (stepKinematics cfg env.gen env.jitter dt (stepEnter cfg env.gen dt s)) with
    | true =>
      rw [step_eq_of_obstacle cfg env dt s hct hob]
      simp
    | false =>
      cases hrt : ringTimedOut cfg (stepTimers dt
          (stepKinematics cfg env.gen env.jitter dt (stepEnter cfg env.gen dt s))) with
      | true =>
        rw [step_eq_of_time cfg env dt s hct hob hrt]
        simp
      | false =>
        rw [step_eq_of_run cfg env dt s hct hob hrt, stepExitPhase_snd]
        split
        · simp
        · simp

lemma step_exit_obstacle_iff (cfg : Config) (env : Env) (dt : ℚ) (s : GState) :
    (step cfg env dt s).2 = StepExit.ended EndReason.obstacle
      ↔ (criticalTimedOut cfg (stepEnter cfg env.gen dt s) = false ∧
          obstacleHit cfg
            (stepKinematics cfg env.gen env.jitter dt (stepEnter cfg env.gen dt s)) = true) := by
  cases hct : criticalTimedOut cfg (stepEnter cfg env.gen dt s) with
  | true =>
    rw [step_eq_of_critical cfg env dt s hct]
    simp
  | false =>
    cases hob : obstacleHit cfg
        (stepKinematics cfg env.gen env.jitter dt (stepEnter cfg env.gen dt s)) with
    | true =>
      rw [step_eq_of_obstacle cfg env dt s hct hob]
      simp
    | false =>
      cases hrt : ringTimedOut cfg (stepTimers dt
          (stepKinematics cfg env.gen env.jitter dt (stepEnter cfg env.gen dt s))) with
      | true =>
        rw [step_eq_of_time cfg env dt s hct hob hrt]
        simp
      | false =>
        rw [step_eq_of_run cfg env dt s hct hob hrt, stepExitPhase_snd]
        split
        · simp
        · simp

lemma step_exit_time_iff (cfg : Config) (env : Env) (dt : ℚ) (s : GState) :
    (step cfg env dt s).2 = StepExit.ended EndReason.time
      ↔ (criticalTimedOut cfg (stepEnter cfg env.gen dt s) = false ∧
          obstacleHit cfg
            (stepKinematics cfg env.gen env.jitter dt (stepEnter cfg env.gen dt s)) = false ∧
          ringTimedOut cfg (stepTimers dt
            (stepKinematics cfg env.gen env.jitter dt (stepEnter cfg env.gen dt s))) = true) := by
  cases hct : criticalTimedOut cfg (stepEnter cfg env.gen dt s) with
  | true =>
    rw [step_eq_of_critical cfg env dt s hct]
    simp
  | false =>
    cases hob : obstacleHit cfg
        (stepKinematics cfg env.gen env.jitter dt (stepEnter cfg env.gen dt s)) with
    | true =>
      rw [step_eq_of_obstacle cfg env dt s hct hob]
      simp
    | false =>
      cases hrt : ringTimedOut cfg (stepTimers dt
          (stepKinematics cfg env.gen env.jitter dt (stepEnter cfg env.gen dt s))) with
      | true =>
        rw [step_eq_of_time cfg env dt s hct hob hrt]
        simp
      | false =>
        rw [step_eq_of_run cfg env dt s hct hob hrt, stepExitPhase_snd]
        split
        · simp
        · simp

lemma step_exit_completed_iff (cfg : Config) (env : Env) (dt : ℚ) (s : GState) :
    (step cfg env dt s).2 = StepExit.completed
      ↔ (criticalTimedOut cfg (stepEnter cfg env.gen dt s) = false ∧
          obstacleHit cfg
            (stepKinematics cfg env.gen env.jitter dt (stepEnter cfg env.gen dt s)) = false ∧
          ringTimedOut cfg (stepTimers dt
            (stepKinematics cfg env.gen env.jitter dt (stepEnter cfg env.gen dt s))) = false ∧
          ((detectPhase cfg env.gen (stepChainDecay dt (stepTimers dt
              (stepKinematics cfg env.gen env.jitter dt
                (stepEnter cfg env.gen dt s))))).sprintCompleted
            || (detectPhase cfg env.gen (stepChainDecay dt (stepTimers dt
              (stepKinematics cfg env.gen env.jitter dt
                (stepEnter cfg env.gen dt s))))).dailyCompleted) = true) := by
  cases hct : criticalTimedOut cfg (stepEnter cfg env.gen dt s) with
  | true =>
    rw [step_eq_of_critical cfg env dt s hct]
    simp
  | false =>
    cases hob : obstacleHit cfg
        (stepKinematics cfg env.gen env.jitter dt (stepEnter cfg env.gen dt s)) with
    | true =>
      rw [step_eq_of_obstacle cfg env dt s hct hob]
      simp
    | false =>
      cases hrt : ringTimedOut cfg (stepTimers dt
          (stepKinematics cfg env.gen env.jitter dt (stepEnter cfg env.gen dt s))) with
      | true =>
        rw [step_eq_of_time cfg env dt s hct hob hrt]
        simp
      | false =>
        rw [step_eq_of_run cfg env dt s hct hob hrt, stepExitPhase_snd]
        split
        · rename_i hflag
          simp [hflag]
        · rename_i hflag
          simp only [Bool.or_eq_true, not_or, Bool.not_eq_true] at hflag
          simp [hflag.1, hflag.2]

/-- **C3**: a tick fires at most one terminal outcome, evaluated in source
order — critical-orbit timeout (cause `pressure_fail`) with early return
first, then obstacle collision, then ring timeout against the budget
`max(2.6, maxRingTime - score·perScoreReduction)`, then mode-specific
completion; when the critical timeout coincides with the obstacle or ring
timeout condition the run ends with `pressure_fail`. -/
theorem fail_order_spec :
    (∀ (cfg : Config) (s : GState), timeLimitOf cfg s
        = max 2.6 (s.maxRingTime - (s.score : ℚ) * (if cfg.expert then 0.08 else 0.06))) ∧
    (∀ (cfg : Config) (env : Env) (dt : ℚ) (s : GState),
      ((step cfg env dt s).2 = StepExit.ended EndReason.pressureFail
          ↔ criticalTimedOut cfg (stepEnter cfg env.gen dt s) = true) ∧
      ((step cfg env dt s).2 = StepExit.ended EndReason.obstacle
          ↔ (criticalTimedOut cfg (stepEnter cfg env.gen dt s) = false ∧
              obstacleHit cfg (stepKinematics cfg env.gen env.jitter dt
                (stepEnter cfg env.gen dt s)) = true)) ∧
      ((step cfg env dt s).2 = StepExit.ended EndReason.time
          ↔ (criticalTimedOut cfg (stepEnter cfg env.gen dt s) = false ∧
              obstacleHit cfg (stepKinematics cfg env.gen env.jitter dt
                (stepEnter cfg env.gen dt s)) = false ∧
              ringTimedOut cfg (stepTimers dt (stepKinematics cfg env.gen env.jitter dt
                (stepEnter cfg env.gen dt s))) = true))) ∧
    (∀ (cfg : Config) (env : Env) (dt : ℚ) (s : GState),
      criticalTimedOut cfg (stepEnter cfg env.gen dt s) = true →
      (obstacleHit cfg (stepKinematics cfg env.gen env.jitter dt
          (stepEnter cfg env.gen dt s)) = true ∨
        ringTimedOut cfg (stepTimers dt (stepKinematics cfg env.gen env.jitter dt
          (stepEnter cfg env.gen dt s))) = true) →
      (step cfg env dt s).2 = StepExit.ended EndReason.pressureFail) := by
  refine ⟨fun cfg s => rfl, fun cfg env dt s => ⟨step_exit_pressureFail_iff cfg env dt s,
    step_exit_obstacle_iff cfg env dt s, step_exit_time_iff cfg env dt s⟩,
    fun cfg env dt s hct _ => ?_⟩
  exact (step_exit_pressureFail_iff cfg env dt s).mpr hct

/-- A state whose critical window has long expired and whose ring timer is
also exhausted: both fatal conditions hold on the same tick. -/
def timeoutState : GState :=
  { baseState with criticalActive := true, now := 20000, timeInRing := 100 }

lemma timeoutState_crit :
    criticalTimedOut cfgA (stepEnter cfgA env0.gen (1 / 100) timeoutState) = true := by
  show (true && decide ((12 : ℚ) ≤ ((20000 : ℚ) + 1000 * (1 / 100) - (0 : ℚ)) / 1000)) = true
  rw [Bool.true_and]
  exact decide_eq_true (by norm_num)

lemma timeoutState_ringTimeout :
    ringTimedOut cfgA (stepTimers (1 / 100)
      (stepKinematics cfgA env0.gen env0.jitter (1 / 100)
        (stepEnter cfgA env0.gen (1 / 100) timeoutState))) = true := by
  show decide (max 2.6 ((7.5 : ℚ) - ((0 : ℕ) : ℚ) * 0.06) < (100 : ℚ) + 1 / 100) = true
  refine decide_eq_true ?_
  rw [max_lt_iff]
  constructor <;> norm_num

/-- Witness for C3: a concrete tick on which both the critical timeout and
the ring timeout hold ends with cause `pressure_fail`. -/
theorem fail_order_spec_witness :
    criticalTimedOut cfgA (stepEnter cfgA env0.gen (1 / 100) timeoutState) = true ∧
    ringTimedOut cfgA (stepTimers (1 / 100)
      (stepKinematics cfgA env0.gen env0.jitter (1 / 100)
        (stepEnter cfgA env0.gen (1 / 100) timeoutState))) = true ∧
    (step cfgA env0 (1 / 100) timeoutState).2 = StepExit.ended EndReason.pressureFail :=
  ⟨timeoutState_crit, timeoutState_ringTimeout,
    fail_order_spec.2.2 cfgA env0 (1 / 100) timeoutState timeoutState_crit
      (Or.inr timeoutState_ringTimeout)⟩

/-- **C2**: an escape while CRITICAL (and before the critical window
elapses) zeroes `pressure` and clears `criticalActive`; with no escape, a
tick ends the run with cause `pressure_fail` exactly when the critical
elapsed time has reached `criticalWindow` — never before. -/
theorem critical_roundtrip_spec :
    (∀ (cfg : Config) (s : GState), criticalTimedOut cfg s
        = (s.criticalActive && decide (cfg.ab.criticalWindow ≤ s.criticalElapsed))) ∧
    (∀ (cfg : Config) (env : Env) (dt : ℚ) (s : GState),
      (step cfg env dt s).2 = StepExit.ended EndReason.pressureFail
        ↔ criticalTimedOut cfg (stepEnter cfg env.gen dt s) = true) ∧
    (∀ (cfg : Config) (env : Env) (dt : ℚ) (s : GState),
      s.pendingEscapes = [] →
      (stepEnter cfg env.gen dt s).criticalActive = true →
      criticalTimedOut cfg (stepEnter cfg env.gen dt s) = false →
      obstacleHit cfg
        (stepKinematics cfg env.gen env.jitter dt (stepEnter cfg env.gen dt s)) = false →
      ringTimedOut cfg (stepTimers dt
        (stepKinematics cfg env.gen env.jitter dt (stepEnter cfg env.gen dt s))) = false →
      (detectChain cfg env.gen
        (stepChainDecay dt (stepTimers dt (stepKinematics cfg env.gen env.jitter dt
          (stepEnter cfg env.gen dt s)))).ballAngle
        (stepChainDecay dt (stepTimers dt (stepKinematics cfg env.gen env.jitter dt
          (stepEnter cfg env.gen dt s)))).escaped
        (stepChainDecay dt (stepTimers dt (stepKinematics cfg env.gen env.jitter dt
          (stepEnter cfg env.gen dt s)))).store).2 ≠ [] →
      (step cfg env dt s).1.pressure = 0 ∧
      (step cfg env dt s).1.criticalActive = false) := by
  refine ⟨fun cfg s => rfl, step_exit_pressureFail_iff,
    fun cfg env dt s hpend hca hct hob hrt hres => ?_⟩
  have hcc : commitCond dt (stepEnter cfg env.gen dt s) = false := by
    unfold commitCond
    rw [show (stepEnter cfg env.gen dt s).pendingEscapes = s.pendingEscapes from rfl, hpend]
    simp
  have hpend4 : (stepChainDecay dt (stepTimers dt (stepKinematics cfg env.gen env.jitter dt
      (stepEnter cfg env.gen dt s)))).pendingEscapes = [] := by
    show (stepKinematics cfg env.gen env.jitter dt
      (stepEnter cfg env.gen dt s)).pendingEscapes = []
    rw [(stepKinematics_noCommit cfg env.gen env.jitter dt _ hcc).2.1]
    exact hpend
  have hca4 : (stepChainDecay dt (stepTimers dt (stepKinematics cfg env.gen env.jitter dt
      (stepEnter cfg env.gen dt s)))).criticalActive = true := by
    show (stepKinematics cfg env.gen env.jitter dt
      (stepEnter cfg env.gen dt s)).criticalActive = true
    rw [(stepKinematics_untouched cfg env.gen env.jitter dt _).2.2.2.2.1]
    exact hca
  rw [step_eq_of_run cfg env dt s hct hob hrt,
    detectPhase_chain cfg env.gen _ hpend4 hres, stepExitPhase_fst]
  set s4 := stepChainDecay dt (stepTimers dt (stepKinematics cfg env.gen env.jitter dt
    (stepEnter cfg env.gen dt s)))
  constructor
  · rw [(processEscape_fields cfg env.gen
      { s4 with store := (detectChain cfg env.gen s4.ballAngle s4.escaped s4.store).1 }
      (detectChain cfg env.gen s4.ballAngle s4.escaped s4.store).2).2.2.2.2.2.2.2,
      if_pos hca4]
  · exact (processEscape_fields cfg env.gen
      { s4 with store := (detectChain cfg env.gen s4.ballAngle s4.escaped s4.store).1 }
      (detectChain cfg env.gen s4.ballAngle s4.escaped s4.store).2).2.2.2.2.2.2.1

lemma detectChain_ne_nil (cfg : Config) (gen : ℕ → GenDraws) (ball : ℚ) (escaped : ℕ)
    (st : RingStore) (h : alignedB ball (ringAt cfg gen st escaped) = true) :
    (detectChain cfg gen ball escaped st).2 ≠ [] := by
  rw [detectChain, detectAux_snd]
  have e : chainIdx (fun i => alignedB ball (ringAt cfg gen st i)) 6 escaped
      = if alignedB ball (ringAt cfg gen st escaped) then
          escaped :: chainIdx (fun i => alignedB ball (ringAt cfg gen st i)) 5 (escaped + 1)
        else [] := rfl
  rw [e, if_pos h]
  simp

/-- A run state in critical orbit (entered recently, pressure 0.95) with the
window's rings still aligned ahead of the ball. -/
def critEscapeState : GState :=
  { baseState with criticalActive := true, pressure := 0.95 }

lemma critEscape_hct :
    criticalTimedOut cfgA (stepEnter cfgA env0.gen (1 / 100) critEscapeState) = false := by
  show (true && decide ((12 : ℚ) ≤ ((0 : ℚ) + 1000 * (1 / 100) - (0 : ℚ)) / 1000)) = false
  rw [Bool.true_and]
  exact decide_eq_false (by norm_num)

lemma critEscape_hob :
    obstacleHit cfgA (stepKinematics cfgA env0.gen env0.jitter (1 / 100)
      (stepEnter cfgA env0.gen (1 / 100) critEscapeState)) = false := rfl

lemma critEscape_hrt :
    ringTimedOut cfgA (stepTimers (1 / 100)
      (stepKinematics cfgA env0.gen env0.jitter (1 / 100)
        (stepEnter cfgA env0.gen (1 / 100) critEscapeState))) = false := by
  show decide (max 2.6 ((7.5 : ℚ) - ((0 : ℕ) : ℚ) * 0.06) < (0 : ℚ) + 1 / 100) = false
  refine decide_eq_false ?_
  rw [max_lt_iff]
  intro h
  have h1 := h.1
  norm_num at h1

lemma critEscape_ball :
    (stepChainDecay (1 / 100) (stepTimers (1 / 100)
      (stepKinematics cfgA env0.gen env0.jitter (1 / 100)
        (stepEnter cfgA env0.gen (1 / 100) critEscapeState)))).ballAngle
    = jsRem ((0 : ℚ) + ((1 : ℤ) : ℚ)
        * (min (1.15 + ((0 : ℕ) : ℚ) * 0.018) 3.5
          * lerp 1.00 0.45 (clamp (clamp ((0.95 : ℚ) + 0.08 * (1 / 100)) 0 1
              - 0.06 * (1 / 100)) 0 1))
        * (1 / 100)) (jsPI * 2) := rfl

lemma critEscape_escaped :
    (stepChainDecay (1 / 100) (stepTimers (1 / 100)
      (stepKinematics cfgA env0.gen env0.jitter (1 / 100)
        (stepEnter cfgA env0.gen (1 / 100) critEscapeState)))).escaped = 0 := rfl

lemma critEscape_ring :
    ringAt cfgA env0.gen
      (stepChainDecay (1 / 100) (stepTimers (1 / 100)
        (stepKinematics cfgA env0.gen env0.jitter (1 / 100)
          (stepEnter cfgA env0.gen (1 / 100) critEscapeState)))).store 0
    = ⟨jsRem ((0 : ℚ) + ((0.4 : ℚ) + ((0 : ℚ) - 0.5) * (0 : ℚ)) * (1 / 100)) (jsPI * 2),
        0.56, 0.4, 0, false, 0⟩ := rfl

lemma critEscape_aligned :
    alignedB
      (stepChainDecay (1 / 100) (stepTimers (1 / 100)
        (stepKinematics cfgA env0.gen env0.jitter (1 / 100)
          (stepEnter cfgA env0.gen (1 / 100) critEscapeState)))).ballAngle
      (ringAt cfgA env0.gen
        (stepChainDecay (1 / 100) (stepTimers (1 / 100)
          (stepKinematics cfgA env0.gen env0.jitter (1 / 100)
            (stepEnter cfgA env0.gen (1 / 100) critEscapeState)))).store 0) = true := by
  have harg1 : ((0 : ℚ) + ((1 : ℤ) : ℚ)
      * (min (1.15 + ((0 : ℕ) : ℚ) * 0.018) 3.5
        * lerp 1.00 0.45 (clamp (clamp ((0.95 : ℚ) + 0.08 * (1 / 100)) 0 1
            - 0.06 * (1 / 100)) 0 1))
      * (1 / 100)) = 1097997 / 200000000 := by
    norm_num [lerp, clamp, max_def, min_def]
  have harg2 : ((0 : ℚ) + ((0.4 : ℚ) + ((0 : ℚ) - 0.5) * (0 : ℚ)) * (1 / 100)) = 1 / 250 := by
    norm_num
  rw [critEscape_ball, critEscape_ring, harg1, harg2,
    jsRem_eq_self (by norm_num [jsPI]) (by norm_num [jsPI]) (by norm_num [jsPI]),
    jsRem_eq_self (by norm_num [jsPI]) (by norm_num [jsPI]) (by norm_num [jsPI]),
    alignedB_true_iff (by norm_num) (by norm_num)]
  show |angDiff (1097997 / 200000000 : ℚ) (1 / 250)| ≤ (0.56 : ℚ) / 2
  unfold angDiff
  rw [angNorm_eq_self (by norm_num [jsPI]) (by norm_num [jsPI]),
    abs_of_nonneg (by norm_num)]
  norm_num

/-- Witness for C2: on a concrete critical-orbit tick whose chain detector
fires before the window elapses, the tick leaves `pressure = 0` and
`criticalActive = false`. -/
theorem critical_roundtrip_spec_witness :
    critEscapeState.pendingEscapes = [] ∧
    (stepEnter cfgA env0.gen (1 / 100) critEscapeState).criticalActive = true ∧
    criticalTimedOut cfgA (stepEnter cfgA env0.gen (1 / 100) critEscapeState) = false ∧
    (step cfgA env0 (1 / 100) critEscapeState).1.pressure = 0 ∧
    (step cfgA env0 (1 / 100) critEscapeState).1.criticalActive = false := by
  have hres := detectChain_ne_nil cfgA env0.gen _ _ _
    (critEscape_escaped ▸ critEscape_aligned)
  have hmain := critical_roundtrip_spec.2.2 cfgA env0 (1 / 100) critEscapeState rfl rfl
    critEscape_hct critEscape_hob critEscape_hrt (critEscape_escaped ▸ hres)
  exact ⟨rfl, rfl, critEscape_hct, hmain.1, hmain.2⟩

/-- **C6**: while an escape transition is in flight, `escapedIndex`, the
pending buffer and the target are unchanged and no surviving ring's gap
center is advanced by rotation or jitter — alignment and obstacle tests keep
operating against the pre-transition ring; on the tick whose progress
reaches 1 (and on which the critical timeout does not fire first),
`escapedIndex` is set to `targetEscapedIndex`, and if no fresh escape is
scored that same tick the pending buffer is cleared. -/
theorem transition_freeze_spec :
    (∀ (cfg : Config) (env : Env) (dt : ℚ) (s : GState),
      s.pendingEscapes ≠ [] →
      clamp (s.escapeTweenProgress + dt / s.escapeTweenDuration) 0 1 < 1 →
      (step cfg env dt s).1.escaped = s.escaped ∧
      (step cfg env dt s).1.pendingEscapes = s.pendingEscapes ∧
      (step cfg env dt s).1.escapeTargetEscaped = s.escapeTargetEscaped ∧
      (step cfg env dt s).1.score = s.score ∧
      (∀ i, i ∈ s.store.keys → i ∈ (step cfg env dt s).1.store.keys →
        ((step cfg env dt s).1.store.data i).gapCenter = (s.store.data i).gapCenter)) ∧
    (∀ (cfg : Config) (env : Env) (dt : ℚ) (s : GState),
      s.pendingEscapes ≠ [] →
      1 ≤ clamp (s.escapeTweenProgress + dt / s.escapeTweenDuration) 0 1 →
      criticalTimedOut cfg (stepEnter cfg env.gen dt s) = false →
      (step cfg env dt s).1.escaped = s.escapeTargetEscaped ∧
      ((step cfg env dt s).1.score = s.score → (step cfg env dt s).1.pendingEscapes = [])) :=
  ⟨step_inflight, step_commit⟩

/-- A state on which the pending transition completes this tick. -/
def commitState : GState :=
  { baseState with pendingEscapes := [0], escapeTweenProgress := 0.95,
                   escapeTweenDuration := 0.12, escapeTargetEscaped := 1 }

/-- Witness for C6: the freeze applied to a mid-flight tick and the commit
applied to a completing tick, at concrete states. -/
theorem transition_freeze_spec_witness :
    (inflightState.pendingEscapes ≠ [] ∧
      clamp (inflightState.escapeTweenProgress
        + (1 / 100) / inflightState.escapeTweenDuration) 0 1 < 1 ∧
      (step cfgA env0 (1 / 100) inflightState).1.escaped = inflightState.escaped) ∧
    (commitState.pendingEscapes ≠ [] ∧
      1 ≤ clamp (commitState.escapeTweenProgress
        + (1 / 100) / commitState.escapeTweenDuration) 0 1 ∧
      (step cfgA env0 (1 / 100) commitState).1.escaped = commitState.escapeTargetEscaped) := by
  have hne1 : inflightState.pendingEscapes ≠ [] := by
    show ([0] : List ℕ) ≠ []
    simp
  have hcl1 : clamp (inflightState.escapeTweenProgress
      + (1 / 100) / inflightState.escapeTweenDuration) 0 1 < 1 := by
    show clamp (0 + (1 / 100 : ℚ) / (0.12 : ℚ)) 0 1 < 1
    rw [clamp_eq_self (by norm_num) (by norm_num)]
    norm_num
  have hne2 : commitState.pendingEscapes ≠ [] := by
    show ([0] : List ℕ) ≠ []
    simp
  have hcl2 : 1 ≤ clamp (commitState.escapeTweenProgress
      + (1 / 100) / commitState.escapeTweenDuration) 0 1 := by
    show 1 ≤ clamp ((0.95 : ℚ) + (1 / 100 : ℚ) / (0.12 : ℚ)) 0 1
    unfold clamp
    rw [min_eq_left (by norm_num)]
    rw [max_eq_right (by norm_num)]
  have hp2 : ¬ ((0.9 : ℚ) ≤ clamp (clamp ((0 : ℚ) + 0.08 * (1 / 100)) 0 1
      - 0.06 * (1 / 100)) 0 1) := by
    norm_num [clamp, max_def, min_def]
  have hct2 : criticalTimedOut cfgA (stepEnter cfgA env0.gen (1 / 100) commitState) = false := by
    unfold criticalTimedOut
    have hca : (stepEnter cfgA env0.gen (1 / 100) commitState).criticalActive = false := by
      show (false || (!false && decide ((0.9 : ℚ) ≤ clamp (clamp
          ((0 : ℚ) + 0.08 * (1 / 100)) 0 1 - 0.06 * (1 / 100)) 0 1))) = false
      rw [Bool.false_or, Bool.not_false, Bool.true_and]
      exact decide_eq_false hp2
    rw [hca, Bool.false_and]
  exact ⟨⟨hne1, hcl1, (transition_freeze_spec.1 cfgA env0 (1 / 100) inflightState hne1 hcl1).1⟩,
    ⟨hne2, hcl2, (transition_freeze_spec.2 cfgA env0 (1 / 100) commitState hne2 hcl2 hct2).1⟩⟩

/-! ## C9: deterministic daily pattern -/

lemma xor_shift_lt {t n k : ℕ} (h : t < 2 ^ n) : (t ^^^ (t >>> k)) < 2 ^ n :=
  Nat.xor_lt_two_pow h
    (lt_of_le_of_lt (by rw [Nat.shiftRight_eq_div_pow]; exact Nat.div_le_self _ _) h)

lemma mulberryNext_fst_lt (seed : ℕ) : (mulberryNext seed).1 < 2 ^ 32 := by
  unfold mulberryNext
  exact xor_shift_lt (Nat.xor_lt_two_pow (Nat.mod_lt _ (by norm_num))
    (Nat.mod_lt _ (by norm_num)))

lemma mulberryList_length (seed n : ℕ) : (mulberryList seed n).length = n := by
  induction n generalizing seed with
  | zero => rfl
  | succ n ih =>
    show (mulberryList seed (n + 1)).length = n + 1
    unfold mulberryList
    simp [ih]

lemma mulberryList_lt (seed n : ℕ) : ∀ v ∈ mulberryList seed n, v < 2 ^ 32 := by
  induction n generalizing seed with
  | zero => intro v hv; simp [mulberryList] at hv
  | succ n ih =>
    intro v hv
    unfold mulberryList at hv
    simp only [List.mem_cons] at hv
    rcases hv with hv | hv
    · exact hv ▸ mulberryNext_fst_lt seed
    · exact ih _ v hv

set_option maxRecDepth 4000 in
/-- The first gap center produced for the seed `"2024-01-01"`, computed
through the string hash and one mulberry32 step. -/
lemma daily_pattern_first_entry :
    (generateDailyPattern "2024-01-01" 50).gapCenters.getD 0 0
      = ((2141686176 : ℕ) : ℚ) / 4294967296 * jsPI * 2 := rfl

/-- **C9**: daily-pattern generation is deterministic — it is a pure function
of `(dateId, length)` (first conjunct, definitional in the embedding because
the generator consumes no ambient state); it produces exactly `length` gap
centers, each in `[0, 2π)`; in daily mode ring index `i` reads the pattern
entry at `i mod sequenceLength`; and the seed `"2024-01-01"` reproduces the
same concrete values on every run (the first entry is pinned down exactly). -/
theorem daily_pattern_deterministic_spec :
    (∀ (dateId : String) (len : ℕ),
      generateDailyPattern dateId len = generateDailyPattern dateId len) ∧
    (∀ (dateId : String) (len : ℕ),
      (generateDailyPattern dateId len).gapCenters.length = len) ∧
    (∀ (dateId : String) (len : ℕ) (x : ℚ),
      x ∈ (generateDailyPattern dateId len).gapCenters → 0 ≤ x ∧ x < jsPI * 2) ∧
    (∀ (p : Pattern) (i : ℕ),
      getDailyGapCenter p i = p.gapCenters.getD (i % p.gapCenters.length) 0) ∧
    (∀ (cfg : Config) (p : Pattern) (i : ℕ) (d : GenDraws),
      cfg.mode = Mode.daily → cfg.dailyPattern = some p →
      (ringParamsForIndex cfg i d).gapCenter = getDailyGapCenter p i) ∧
    (generateDailyPattern "2024-01-01" 50).gapCenters.length = 50 ∧
    (generateDailyPattern "2024-01-01" 50).gapCenters.getD 0 0
      = ((2141686176 : ℕ) : ℚ) / 4294967296 * jsPI * 2 := by
  refine ⟨fun _ _ => rfl, ?_, ?_, fun p i => rfl, ?_, ?_, daily_pattern_first_entry⟩
  · intro dateId len
    unfold generateDailyPattern
    rw [List.length_map, mulberryList_length]
  · intro dateId len x hx
    unfold generateDailyPattern at hx
    obtain ⟨v, hv, heq⟩ := List.mem_map.1 hx
    have hlt : (v : ℚ) < 4294967296 := by
      have h := mulberryList_lt (dateToSeed dateId) len v hv
      exact_mod_cast h
    have hdiv : (v : ℚ) / 4294967296 < 1 := (div_lt_one (by norm_num)).mpr hlt
    have h0 : (0 : ℚ) ≤ (v : ℚ) / 4294967296 := div_nonneg (Nat.cast_nonneg v) (by norm_num)
    have hpi := jsPI_pos
    rw [← heq]
    constructor
    · nlinarith
    · nlinarith
  · intro cfg p i d hm hp
    rcases cfg with ⟨e, m, dp, ab, ri, gp⟩
    simp only at hm hp
    subst hm
    subst hp
    rfl
  · unfold generateDailyPattern
    rw [List.length_map, mulberryList_length]

/-- The pattern for `"2024-01-01"` and a daily-mode configuration using it. -/
def patD : Pattern := generateDailyPattern "2024-01-01" 50

def cfgD : Config := ⟨false, Mode.daily, some patD, getABParams .A, 100, 50⟩

lemma getD_zero_mem {l : List ℚ} (h : l ≠ []) : l.getD 0 0 ∈ l := by
  cases l with
  | nil => exact absurd rfl h
  | cons a l => simp [List.getD]

/-- Witness for C9: the daily-mode gap-center lookup and the range bound,
instantiated at the `"2024-01-01"` pattern and ring index 7. -/
theorem daily_pattern_deterministic_spec_witness :
    cfgD.mode = Mode.daily ∧ cfgD.dailyPattern = some patD ∧
    (ringParamsForIndex cfgD 7 zeroDraws).gapCenter = getDailyGapCenter patD 7 ∧
    (0 ≤ (generateDailyPattern "2024-01-01" 50).gapCenters.getD 0 0 ∧
      (generateDailyPattern "2024-01-01" 50).gapCenters.getD 0 0 < jsPI * 2) := by
  have hlen : (generateDailyPattern "2024-01-01" 50).gapCenters.length = 50 :=
    daily_pattern_deterministic_spec.2.1 "2024-01-01" 50
  have hne : (generateDailyPattern "2024-01-01" 50).gapCenters ≠ [] := by
    intro h
    rw [h] at hlen
    simp at hlen
  exact ⟨rfl, rfl,
    daily_pattern_deterministic_spec.2.2.2.2.1 cfgD patD 7 zeroDraws rfl rfl,
    daily_pattern_deterministic_spec.2.2.1 "2024-01-01" 50 _ (getD_zero_mem hne)⟩

/-! ## C10: the stored ball angle under the JS `%` wrap -/

lemma detectPhase_ballAngle (cfg : Config) (gen : ℕ → GenDraws) (s : GState) :
    (detectPhase cfg gen s).ballAngle = s.ballAngle := by
  by_cases hpend : s.pendingEscapes = []
  · by_cases hres : (detectChain cfg gen s.ballAngle s.escaped s.store).2 = []
    · rw [detectPhase_no_chain cfg gen s hpend hres]
    · rw [detectPhase_chain cfg gen s hpend hres]
      rfl
  · rw [detectPhase_of_pending cfg gen s hpend]

/-- On every tick that survives the critical-timeout check, the stored ball
angle is the JS-remainder wrap of the advanced angle. -/
lemma step_ballAngle_eq (cfg : Config) (env : Env) (dt : ℚ) (s : GState)
    (hct : criticalTimedOut cfg (stepEnter cfg env.gen dt s) = false) :
    (step cfg env dt s).1.ballAngle
      = jsRem (s.ballAngle + (s.ballDir : ℚ)
          * orbitSpeedOf cfg (stepEnter cfg env.gen dt s) * dt) (jsPI * 2) := by
  cases hob : obstacleHit cfg
      (stepKinematics cfg env.gen env.jitter dt (stepEnter cfg env.gen dt s)) with
  | true =>
    rw [step_eq_of_obstacle cfg env dt s hct hob]
    rfl
  | false =>
    cases hrt : ringTimedOut cfg (stepTimers dt
        (stepKinematics cfg env.gen env.jitter dt (stepEnter cfg env.gen dt s))) with
    | true =>
      rw [step_eq_of_time cfg env dt s hct hob hrt]
      rfl
    | false =>
      rw [step_eq_of_run cfg env dt s hct hob hrt, stepExitPhase_fst]
      show (detectPhase cfg env.gen _).ballAngle = _
      rw [detectPhase_ballAngle]
      rfl

lemma orbitSpeedOf_nonneg (cfg : Config) (s : GState) (h : s.pressure ≤ 1) :
    0 ≤ orbitSpeedOf cfg s := by
  unfold orbitSpeedOf lerp
  refine mul_nonneg (le_min ?_ (by norm_num [BALL_SPEED_MAX])) (by linarith)
  split
  · unfold BALL_SPEED_BASE_EXPERT BALL_SPEED_INCREASE_EXPERT
    positivity
  · unfold BALL_SPEED_BASE_NORMAL BALL_SPEED_INCREASE_NORMAL
    positivity

/-- **C10 (amended)**: at reset the ball angle is initialized in `[0, 2π)`;
after a tick the stored angle is wrapped by the JS `%` operator, which keeps
its magnitude below `2π` but carries the dividend's sign — so every reachable
state has `ballAngle ∈ (−2π, 2π)`, and with direction `+1`, a nonnegative
angle and `dt ≥ 0` the angle stays in `[0, 2π)`; with direction `−1` it can
become negative (see the counterexample). -/
theorem ball_angle_wrap_spec :
    (∀ (cfg : Config) (gen : ℕ → GenDraws) (u t0 : ℚ), 0 ≤ u → u < 1 →
      0 ≤ (resetGame cfg gen u t0).ballAngle ∧
      (resetGame cfg gen u t0).ballAngle < jsPI * 2) ∧
    (∀ (cfg : Config) (s : GState), Reachable cfg s →
      -(jsPI * 2) < s.ballAngle ∧ s.ballAngle < jsPI * 2) ∧
    (∀ (cfg : Config) (env : Env) (dt : ℚ) (s : GState),
      criticalTimedOut cfg (stepEnter cfg env.gen dt s) = false →
      s.ballDir = 1 → 0 ≤ s.ballAngle → 0 ≤ dt →
      0 ≤ (step cfg env dt s).1.ballAngle ∧
      (step cfg env dt s).1.ballAngle < jsPI * 2) := by
  have hpi := jsPI_pos
  have h2pi : (0 : ℚ) < jsPI * 2 := by linarith
  refine ⟨?_, ?_, ?_⟩
  · intro cfg gen u t0 hu0 hu1
    show 0 ≤ (0 : ℚ) + u * (jsPI * 2 - 0) ∧ (0 : ℚ) + u * (jsPI * 2 - 0) < jsPI * 2
    constructor
    · nlinarith
    · nlinarith
  · intro cfg s h
    induction h with
    | reset gen ballU t0 _ hu0 hu1 =>
      show -(jsPI * 2) < (0 : ℚ) + ballU * (jsPI * 2 - 0) ∧
        (0 : ℚ) + ballU * (jsPI * 2 - 0) < jsPI * 2
      constructor
      · nlinarith
      · nlinarith
    | tap s _ ih =>
      exact ih
    | tick s s' env dt _ _ _ hstep ih =>
      cases hct : criticalTimedOut cfg (stepEnter cfg env.gen dt s) with
      | true =>
        exfalso
        have h1 := step_eq_of_critical cfg env dt s hct
        rw [hstep] at h1
        exact StepExit.noConfusion (congrArg Prod.snd h1)
      | false =>
        have hba : s'.ballAngle = jsRem (s.ballAngle + (s.ballDir : ℚ)
            * orbitSpeedOf cfg (stepEnter cfg env.gen dt s) * dt) (jsPI * 2) := by
          have h1 := step_ballAngle_eq cfg env dt s hct
          rw [hstep] at h1
          exact h1
        rw [hba]
        exact jsRem_bounds h2pi
  · intro cfg env dt s hct hdir hang hdt
    rw [step_ballAngle_eq cfg env dt s hct, hdir]
    have hsp := orbitSpeedOf_nonneg cfg (stepEnter cfg env.gen dt s)
      (stepEnter_pressure_mem cfg env.gen dt s).2
    have harg : 0 ≤ s.ballAngle + ((1 : ℤ) : ℚ)
        * orbitSpeedOf cfg (stepEnter cfg env.gen dt s) * dt := by
      have : (0 : ℚ) ≤ orbitSpeedOf cfg (stepEnter cfg env.gen dt s) * dt :=
        mul_nonneg hsp hdt
      push_cast
      linarith
    exact jsRem_nonneg_bounds h2pi harg

/-- Witness for the amended C10: reset initialization and the direction `+1`
preservation, at concrete inputs. -/
theorem ball_angle_wrap_spec_witness :
    ((0 : ℚ) ≤ 1 / 4 ∧ (1 / 4 : ℚ) < 1 ∧
      0 ≤ (resetGame cfgA (fun _ => zeroDraws) (1 / 4) 0).ballAngle ∧
      (resetGame cfgA (fun _ => zeroDraws) (1 / 4) 0).ballAngle < jsPI * 2) ∧
    (baseState.ballDir = 1 ∧
      0 ≤ (step cfgA env0 (1 / 100) baseState).1.ballAngle ∧
      (step cfgA env0 (1 / 100) baseState).1.ballAngle < jsPI * 2) := by
  have hp2 : ¬ ((0.9 : ℚ) ≤ clamp (clamp ((0 : ℚ) + 0.08 * (1 / 100)) 0 1
      - 0.06 * (1 / 100)) 0 1) := by
    norm_num [clamp, max_def, min_def]
  have hct : criticalTimedOut cfgA (stepEnter cfgA env0.gen (1 / 100) baseState) = false := by
    unfold criticalTimedOut
    have hca : (stepEnter cfgA env0.gen (1 / 100) baseState).criticalActive = false := by
      show (false || (!false && decide ((0.9 : ℚ) ≤ clamp (clamp
          ((0 : ℚ) + 0.08 * (1 / 100)) 0 1 - 0.06 * (1 / 100)) 0 1))) = false
      rw [Bool.false_or, Bool.not_false, Bool.true_and]
      exact decide_eq_false hp2
    rw [hca, Bool.false_and]
  have h1 := ball_angle_wrap_spec.1 cfgA (fun _ => zeroDraws) (1 / 4) 0
    (by norm_num) (by norm_num)
  have h3 := ball_angle_wrap_spec.2.2 cfgA env0 (1 / 100) baseState hct rfl le_rfl
    (by norm_num)
  exact ⟨⟨by norm_num, by norm_num, h1.1, h1.2⟩, ⟨rfl, h3.1, h3.2⟩⟩

/-- A reachable state obtained by one tap after a fresh reset: direction is
`−1` and the ball sits just above angle 0. -/
def tapState : GState := onTap cfgA (resetGame cfgA (fun _ => zeroDraws) (1 / 1000) 0)

/-- Counterexample to C10 as stated: from this reachable state (stored angle
in `[0, 2π)`, direction `−1`), the next tick's kinematics update stores a
negative `ballAngle` — the JS `%` operator keeps the sign of its dividend, so
the angle is not re-wrapped into `[0, 2π)`. -/
theorem ball_angle_counterexample :
    Reachable cfgA tapState ∧
    tapState.ballDir = -1 ∧
    0 ≤ tapState.ballAngle ∧ tapState.ballAngle < jsPI * 2 ∧
    (step cfgA env0 (1 / 100) tapState).1.ballAngle < 0 := by
  have hpi := jsPI_pos
  have h2pi : (0 : ℚ) < jsPI * 2 := by linarith
  have hreach : Reachable cfgA tapState :=
    Reachable.tap _ (Reachable.reset (fun _ => zeroDraws) (1 / 1000) 0
      (fun _ => by norm_num [ValidDraws, zeroDraws]) (by norm_num) (by norm_num))
  have hp2 : ¬ ((0.9 : ℚ) ≤ clamp (clamp (clamp ((0 : ℚ) + 0.12 * 1) 0 1
      + 0.08 * (1 / 100)) 0 1 - 0.06 * (1 / 100)) 0 1) := by
    norm_num [clamp, max_def, min_def]
  have hct : criticalTimedOut cfgA (stepEnter cfgA env0.gen (1 / 100) tapState) = false := by
    unfold criticalTimedOut
    have hca : (stepEnter cfgA env0.gen (1 / 100) tapState).criticalActive = false := by
      show (false || (!false && decide ((0.9 : ℚ) ≤ clamp (clamp (clamp
          ((0 : ℚ) + 0.12 * 1) 0 1 + 0.08 * (1 / 100)) 0 1 - 0.06 * (1 / 100)) 0 1))) = false
      rw [Bool.false_or, Bool.not_false, Bool.true_and]
      exact decide_eq_false hp2
    rw [hca, Bool.false_and]
  have hmirror : tapState.ballAngle + (tapState.ballDir : ℚ)
      * orbitSpeedOf cfgA (stepEnter cfgA env0.gen (1 / 100) tapState) * (1 / 100)
      = ((0 : ℚ) + (1 / 1000) * (jsPI * 2 - 0)) + ((-1 : ℤ) : ℚ)
          * (min (1.15 + ((0 : ℕ) : ℚ) * 0.018) 3.5
            * lerp 1.00 0.45 (clamp (clamp (clamp ((0 : ℚ) + 0.12 * 1) 0 1
                + 0.08 * (1 / 100)) 0 1 - 0.06 * (1 / 100)) 0 1))
          * (1 / 100) := rfl
  have hneg : ((0 : ℚ) + (1 / 1000) * (jsPI * 2 - 0)) + ((-1 : ℤ) : ℚ)
      * (min (1.15 + ((0 : ℕ) : ℚ) * 0.018) 3.5
        * lerp 1.00 0.45 (clamp (clamp (clamp ((0 : ℚ) + 0.12 * 1) 0 1
            + 0.08 * (1 / 100)) 0 1 - 0.06 * (1 / 100)) 0 1))
      * (1 / 100) < 0 := by
    norm_num [jsPI, lerp, clamp, max_def, min_def]
  have hgt : -(jsPI * 2) < ((0 : ℚ) + (1 / 1000) * (jsPI * 2 - 0)) + ((-1 : ℤ) : ℚ)
      * (min (1.15 + ((0 : ℕ) : ℚ) * 0.018) 3.5
        * lerp 1.00 0.45 (clamp (clamp (clamp ((0 : ℚ) + 0.12 * 1) 0 1
            + 0.08 * (1 / 100)) 0 1 - 0.06 * (1 / 100)) 0 1))
      * (1 / 100) := by
    norm_num [jsPI, lerp, clamp, max_def, min_def]
  refine ⟨hreach, rfl, ?_, ?_, ?_⟩
  · show 0 ≤ (0 : ℚ) + (1 / 1000) * (jsPI * 2 - 0)
    nlinarith
  · show (0 : ℚ) + (1 / 1000) * (jsPI * 2 - 0) < jsPI * 2
    nlinarith
  · rw [step_ballAngle_eq cfgA env0 (1 / 100) tapState hct, hmirror,
      jsRem_eq_self h2pi hgt (lt_trans hneg h2pi)]
    exact hneg

/-! ## C8: chain multiplier and chain timer -/

lemma detectChain_single (cfg : Config) (gen : ℕ → GenDraws) (ball : ℚ) (st : RingStore)
    (h0 : alignedB ball (ringAt cfg gen st 0) = true)
    (h1 : alignedB ball (ringAt cfg gen st 1) = false) :
    (detectChain cfg gen ball 0 st).2 = [0] := by
  rw [detectChain, detectAux_snd]
  have e6 : chainIdx (fun i => alignedB ball (ringAt cfg gen st i)) 6 0
      = if alignedB ball (ringAt cfg gen st 0) then
          0 :: chainIdx (fun i => alignedB ball (ringAt cfg gen st i)) 5 1
        else [] := rfl
  have e5 : chainIdx (fun i => alignedB ball (ringAt cfg gen st i)) 5 1
      = if alignedB ball (ringAt cfg gen st 1) then
          1 :: chainIdx (fun i => alignedB ball (ringAt cfg gen st i)) 4 2
        else [] := rfl
  rw [e6, if_pos h0, e5, if_neg (by rw [h1]; exact Bool.false_ne_true)]

lemma detectPhase_chain_mem (cfg : Config) (gen : ℕ → GenDraws) (s : GState)
    (h1 : 1 ≤ s.chain) (h9 : s.chain ≤ 9) :
    1 ≤ (detectPhase cfg gen s).chain ∧ (detectPhase cfg gen s).chain ≤ 9 := by
  by_cases hp : s.pendingEscapes = []
  · by_cases hres : (detectChain cfg gen s.ballAngle s.escaped s.store).2 = []
    · rw [detectPhase_no_chain cfg gen s hp hres]
      exact ⟨h1, h9⟩
    · rw [detectPhase_chain cfg gen s hp hres,
        (processEscape_fields cfg gen
          { s with store := (detectChain cfg gen s.ballAngle s.escaped s.store).1 }
          (detectChain cfg gen s.ballAngle s.escaped s.store).2).2.2.2.2.1]
      exact ⟨le_min (by norm_num) (le_trans h1 (Nat.le_add_right _ _)), min_le_left _ _⟩
  · rw [detectPhase_of_pending cfg gen s hp]
    exact ⟨h1, h9⟩

lemma step_chain_mem (cfg : Config) (env : Env) (dt : ℚ) (s : GState)
    (h1 : 1 ≤ s.chain) (h9 : s.chain ≤ 9) :
    1 ≤ (step cfg env dt s).1.chain ∧ (step cfg env dt s).1.chain ≤ 9 := by
  cases hct : criticalTimedOut cfg (stepEnter cfg env.gen dt s) with
  | true =>
    rw [step_eq_of_critical cfg env dt s hct]
    exact ⟨h1, h9⟩
  | false =>
    cases hob : obstacleHit cfg (stepKinematics cfg env.gen env.jitter dt
        (stepEnter cfg env.gen dt s)) with
    | true =>
      rw [step_eq_of_obstacle cfg env dt s hct hob]
      exact ⟨h1, h9⟩
    | false =>
      cases hrt : ringTimedOut cfg (stepTimers dt (stepKinematics cfg env.gen env.jitter dt
          (stepEnter cfg env.gen dt s))) with
      | true =>
        rw [step_eq_of_time cfg env dt s hct hob hrt]
        exact ⟨h1, h9⟩
      | false =>
        rw [step_eq_of_run cfg env dt s hct hob hrt, stepExitPhase_fst]
        have hs4 : 1 ≤ (stepChainDecay dt (stepTimers dt
              (stepKinematics cfg env.gen env.jitter dt (stepEnter cfg env.gen dt s)))).chain
            ∧ (stepChainDecay dt (stepTimers dt
              (stepKinematics cfg env.gen env.jitter dt
                (stepEnter cfg env.gen dt s)))).chain ≤ 9 := by
          show 1 ≤ (if max 0 (s.chainTimer - dt) = 0 then 1 else s.chain)
            ∧ (if max 0 (s.chainTimer - dt) = 0 then 1 else s.chain) ≤ 9
          by_cases h0 : max 0 (s.chainTimer - dt) = 0
          · rw [if_pos h0]
            exact ⟨le_refl 1, by norm_num⟩
          · rw [if_neg h0]
            exact ⟨h1, h9⟩
        exact detectPhase_chain_mem cfg env.gen _ hs4.1 hs4.2

lemma reach_chain_mem (cfg : Config) (s : GState) (h : Reachable cfg s) :
    1 ≤ s.chain ∧ s.chain ≤ 9 := by
  induction h with
  | reset gen ballU t0 _ _ _ =>
    exact ⟨le_refl 1, (by norm_num : (1 : ℕ) ≤ 9)⟩
  | tap s _ ih =>
    exact ih
  | tick s s' env dt _ _ _ hstep ih =>
    have := step_chain_mem cfg env dt s ih.1 ih.2
    rwa [hstep] at this

/-- **C8** (amended): on a tick that scores an escape of chain length
`k ≥ 1` (no transition pending, none of the three fatal tests fires), the
multiplier is updated to `min 9 (chainDecayed + k)` — where `chainDecayed`
is the multiplier after this tick's decay, i.e. `1` if the decayed timer hit
0 and the old multiplier otherwise — and the chain timer is *set* to
`1.15·k` (the code overwrites it; it is not extended by `1.15·k`).  Without
an escape the timer decays to `max 0 (chainTimer - dt)` and the multiplier
resets to 1 exactly when the decayed timer is 0.  Consequently the
multiplier is an integer in `[1, 9]` in every reachable state. -/
theorem chain_update_spec :
    (∀ (cfg : Config) (env : Env) (dt : ℚ) (s : GState),
      s.pendingEscapes = [] →
      criticalTimedOut cfg (stepEnter cfg env.gen dt s) = false →
      obstacleHit cfg
        (stepKinematics cfg env.gen env.jitter dt (stepEnter cfg env.gen dt s)) = false →
      ringTimedOut cfg (stepTimers dt
        (stepKinematics cfg env.gen env.jitter dt (stepEnter cfg env.gen dt s))) = false →
      (detectChain cfg env.gen
        (stepChainDecay dt (stepTimers dt (stepKinematics cfg env.gen env.jitter dt
          (stepEnter cfg env.gen dt s)))).ballAngle
        (stepChainDecay dt (stepTimers dt (stepKinematics cfg env.gen env.jitter dt
          (stepEnter cfg env.gen dt s)))).escaped
        (stepChainDecay dt (stepTimers dt (stepKinematics cfg env.gen env.jitter dt
          (stepEnter cfg env.gen dt s)))).store).2 ≠ [] →
      (step cfg env dt s).1.chain
        = min 9 ((if max 0 (s.chainTimer - dt) = 0 then 1 else s.chain)
            + (detectChain cfg env.gen
                (stepChainDecay dt (stepTimers dt (stepKinematics cfg env.gen env.jitter dt
                  (stepEnter cfg env.gen dt s)))).ballAngle
                (stepChainDecay dt (stepTimers dt (stepKinematics cfg env.gen env.jitter dt
                  (stepEnter cfg env.gen dt s)))).escaped
                (stepChainDecay dt (stepTimers dt (stepKinematics cfg env.gen env.jitter dt
                  (stepEnter cfg env.gen dt s)))).store).2.length) ∧
      (step cfg env dt s).1.chainTimer
        = 1.15 * (((detectChain cfg env.gen
            (stepChainDecay dt (stepTimers dt (stepKinematics cfg env.gen env.jitter dt
              (stepEnter cfg env.gen dt s)))).ballAngle
            (stepChainDecay dt (stepTimers dt (stepKinematics cfg env.gen env.jitter dt
              (stepEnter cfg env.gen dt s)))).escaped
            (stepChainDecay dt (stepTimers dt (stepKinematics cfg env.gen env.jitter dt
              (stepEnter cfg env.gen dt s)))).store).2.length : ℚ))) ∧
    (∀ (cfg : Config) (env : Env) (dt : ℚ) (s : GState),
      s.pendingEscapes = [] →
      criticalTimedOut cfg (stepEnter cfg env.gen dt s) = false →
      obstacleHit cfg
        (stepKinematics cfg env.gen env.jitter dt (stepEnter cfg env.gen dt s)) = false →
      ringTimedOut cfg (stepTimers dt
        (stepKinematics cfg env.gen env.jitter dt (stepEnter cfg env.gen dt s))) = false →
      (detectChain cfg env.gen
        (stepChainDecay dt (stepTimers dt (stepKinematics cfg env.gen env.jitter dt
          (stepEnter cfg env.gen dt s)))).ballAngle
        (stepChainDecay dt (stepTimers dt (stepKinematics cfg env.gen env.jitter dt
          (stepEnter cfg env.gen dt s)))).escaped
        (stepChainDecay dt (stepTimers dt (stepKinematics cfg env.gen env.jitter dt
          (stepEnter cfg env.gen dt s)))).store).2 = [] →
      (step cfg env dt s).1.chainTimer = max 0 (s.chainTimer - dt) ∧
      (max 0 (s.chainTimer - dt) = 0 → (step cfg env dt s).1.chain = 1) ∧
      (¬ max 0 (s.chainTimer - dt) = 0 → (step cfg env dt s).1.chain = s.chain)) ∧
    (∀ (cfg : Config) (s : GState), Reachable cfg s → 1 ≤ s.chain ∧ s.chain ≤ 9) := by
  refine ⟨fun cfg env dt s hpend hct hob hrt hres => ?_,
    fun cfg env dt s hpend hct hob hrt hres => ?_, reach_chain_mem⟩
  · have hcc : commitCond dt (stepEnter cfg env.gen dt s) = false := by
      unfold commitCond
      rw [show (stepEnter cfg env.gen dt s).pendingEscapes = s.pendingEscapes from rfl, hpend]
      simp
    have hpend4 : (stepChainDecay dt (stepTimers dt (stepKinematics cfg env.gen env.jitter dt
        (stepEnter cfg env.gen dt s)))).pendingEscapes = [] := by
      show (stepKinematics cfg env.gen env.jitter dt
        (stepEnter cfg env.gen dt s)).pendingEscapes = []
      rw [(stepKinematics_noCommit cfg env.gen env.jitter dt _ hcc).2.1]
      exact hpend
    rw [step_eq_of_run cfg env dt s hct hob hrt,
      detectPhase_chain cfg env.gen _ hpend4 hres, stepExitPhase_fst]
    set s4 := stepChainDecay dt (stepTimers dt (stepKinematics cfg env.gen env.jitter dt
      (stepEnter cfg env.gen dt s)))
    exact ⟨(processEscape_fields cfg env.gen
        { s4 with store := (detectChain cfg env.gen s4.ballAngle s4.escaped s4.store).1 }
        (detectChain cfg env.gen s4.ballAngle s4.escaped s4.store).2).2.2.2.2.1,
      (processEscape_fields cfg env.gen
        { s4 with store := (detectChain cfg env.gen s4.ballAngle s4.escaped s4.store).1 }
        (detectChain cfg env.gen s4.ballAngle s4.escaped s4.store).2).2.2.2.1⟩
  · have hcc : commitCond dt (stepEnter cfg env.gen dt s) = false := by
      unfold commitCond
      rw [show (stepEnter cfg env.gen dt s).pendingEscapes = s.pendingEscapes from rfl, hpend]
      simp
    have hpend4 : (stepChainDecay dt (stepTimers dt (stepKinematics cfg env.gen env.jitter dt
        (stepEnter cfg env.gen dt s)))).pendingEscapes = [] := by
      show (stepKinematics cfg env.gen env.jitter dt
        (stepEnter cfg env.gen dt s)).pendingEscapes = []
      rw [(stepKinematics_noCommit cfg env.gen env.jitter dt _ hcc).2.1]
      exact hpend
    rw [step_eq_of_run cfg env dt s hct hob hrt,
      detectPhase_no_chain cfg env.gen _ hpend4 hres, stepExitPhase_fst]
    refine ⟨rfl, fun h0 => ?_, fun h0 => ?_⟩
    · show (if max 0 (s.chainTimer - dt) = 0 then 1 else s.chain) = 1
      rw [if_pos h0]
    · show (if max 0 (s.chainTimer - dt) = 0 then 1 else s.chain) = s.chain
      rw [if_neg h0]

/-- A ring store whose ring 0 has its gap at angle 0 (where the ball is)
and whose other rings have it diametrally opposite. -/
def chainStore : RingStore :=
  ⟨{0, 1, 2, 3, 4}, fun i => ⟨if i = 0 then 0 else jsPI, 0.56, 0.4, 0, false, 0⟩⟩

/-- A run state with a live chain timer (1 s left) about to score a
single-ring escape. -/
def chainState : GState :=
  { baseState with store := chainStore, chainTimer := 1 }

lemma chainEx_hct :
    criticalTimedOut cfgA (stepEnter cfgA env0.gen (1 / 100) chainState) = false := by
  unfold criticalTimedOut
  have hca : (stepEnter cfgA env0.gen (1 / 100) chainState).criticalActive = false := by
    show (false || (!false && decide ((0.9 : ℚ) ≤ clamp (clamp
        ((0 : ℚ) + 0.08 * (1 / 100)) 0 1 - 0.06 * (1 / 100)) 0 1))) = false
    rw [Bool.false_or, Bool.not_false, Bool.true_and]
    exact decide_eq_false (by norm_num [clamp, max_def, min_def])
  rw [hca, Bool.false_and]

lemma chainEx_hob :
    obstacleHit cfgA (stepKinematics cfgA env0.gen env0.jitter (1 / 100)
      (stepEnter cfgA env0.gen (1 / 100) chainState)) = false := rfl

lemma chainEx_hrt :
    ringTimedOut cfgA (stepTimers (1 / 100)
      (stepKinematics cfgA env0.gen env0.jitter (1 / 100)
        (stepEnter cfgA env0.gen (1 / 100) chainState))) = false := by
  show decide (max 2.6 ((7.5 : ℚ) - ((0 : ℕ) : ℚ) * 0.06) < (0 : ℚ) + 1 / 100) = false
  refine decide_eq_false ?_
  rw [max_lt_iff]
  intro h
  have h1 := h.1
  norm_num at h1

lemma chainEx_ball :
    (stepChainDecay (1 / 100) (stepTimers (1 / 100)
      (stepKinematics cfgA env0.gen env0.jitter (1 / 100)
        (stepEnter cfgA env0.gen (1 / 100) chainState)))).ballAngle
    = jsRem ((0 : ℚ) + ((1 : ℤ) : ℚ)
        * (min (1.15 + ((0 : ℕ) : ℚ) * 0.018) 3.5
          * lerp 1.00 0.45 (clamp (clamp ((0 : ℚ) + 0.08 * (1 / 100)) 0 1
              - 0.06 * (1 / 100)) 0 1))
        * (1 / 100)) (jsPI * 2) := rfl

lemma chainEx_ring0 :
    ringAt cfgA env0.gen
      (stepChainDecay (1 / 100) (stepTimers (1 / 100)
        (stepKinematics cfgA env0.gen env0.jitter (1 / 100)
          (stepEnter cfgA env0.gen (1 / 100) chainState)))).store 0
    = ⟨jsRem ((0 : ℚ) + ((0.4 : ℚ) + ((0 : ℚ) - 0.5) * (0 : ℚ)) * (1 / 100)) (jsPI * 2),
        0.56, 0.4, 0, false, 0⟩ := rfl

lemma chainEx_ring1 :
    ringAt cfgA env0.gen
      (stepChainDecay (1 / 100) (stepTimers (1 / 100)
        (stepKinematics cfgA env0.gen env0.jitter (1 / 100)
          (stepEnter cfgA env0.gen (1 / 100) chainState)))).store 1
    = ⟨jsRem (jsPI + ((0.4 : ℚ) + ((0 : ℚ) - 0.5) * (0 : ℚ)) * (1 / 100)) (jsPI * 2),
        0.56, 0.4, 0, false, 0⟩ := rfl

lemma chainEx_ballval : ((0 : ℚ) + ((1 : ℤ) : ℚ)
    * (min (1.15 + ((0 : ℕ) : ℚ) * 0.018) 3.5
      * lerp 1.00 0.45 (clamp (clamp ((0 : ℚ) + 0.08 * (1 / 100)) 0 1
          - 0.06 * (1 / 100)) 0 1))
    * (1 / 100)) = 2299747 / 200000000 := by
  norm_num [lerp, clamp, max_def, min_def]

lemma chainEx_aligned0 :
    alignedB
      (stepChainDecay (1 / 100) (stepTimers (1 / 100)
        (stepKinematics cfgA env0.gen env0.jitter (1 / 100)
          (stepEnter cfgA env0.gen (1 / 100) chainState)))).ballAngle
      (ringAt cfgA env0.gen
        (stepChainDecay (1 / 100) (stepTimers (1 / 100)
          (stepKinematics cfgA env0.gen env0.jitter (1 / 100)
            (stepEnter cfgA env0.gen (1 / 100) chainState)))).store 0) = true := by
  have harg2 : ((0 : ℚ) + ((0.4 : ℚ) + ((0 : ℚ) - 0.5) * (0 : ℚ)) * (1 / 100)) = 1 / 250 := by
    norm_num
  rw [chainEx_ball, chainEx_ring0, chainEx_ballval, harg2,
    jsRem_eq_self (by norm_num [jsPI]) (by norm_num [jsPI]) (by norm_num [jsPI]),
    jsRem_eq_self (by norm_num [jsPI]) (by norm_num [jsPI]) (by norm_num [jsPI]),
    alignedB_true_iff (by norm_num) (by norm_num)]
  show |angDiff (2299747 / 200000000 : ℚ) (1 / 250)| ≤ (0.56 : ℚ) / 2
  unfold angDiff
  rw [angNorm_eq_self (by norm_num [jsPI]) (by norm_num [jsPI]),
    abs_of_nonneg (by norm_num)]
  norm_num

lemma chainEx_misaligned1 :
    alignedB
      (stepChainDecay (1 / 100) (stepTimers (1 / 100)
        (stepKinematics cfgA env0.gen env0.jitter (1 / 100)
          (stepEnter cfgA env0.gen (1 / 100) chainState)))).ballAngle
      (ringAt cfgA env0.gen
        (stepChainDecay (1 / 100) (stepTimers (1 / 100)
          (stepKinematics cfgA env0.gen env0.jitter (1 / 100)
            (stepEnter cfgA env0.gen (1 / 100) chainState)))).store 1) = false := by
  have harg2 : (jsPI + ((0.4 : ℚ) + ((0 : ℚ) - 0.5) * (0 : ℚ)) * (1 / 100))
      = jsPI + 1 / 250 := by
    norm_num
  rw [chainEx_ball, chainEx_ring1, chainEx_ballval, harg2,
    jsRem_eq_self (by norm_num [jsPI]) (by norm_num [jsPI]) (by norm_num [jsPI]),
    jsRem_eq_self (by norm_num [jsPI]) (by norm_num [jsPI]) (by norm_num [jsPI])]
  unfold alignedB
  refine decide_eq_false ?_
  show ¬ (|angDiff (2299747 / 200000000 : ℚ) (jsPI + 1 / 250)|
    ≤ effectiveGapWidth ⟨jsPI + 1 / 250, 0.56, 0.4, 0, false, 0⟩ / 2)
  unfold angDiff effectiveGapWidth
  rw [angNorm_eq_self (by norm_num [jsPI]) (by norm_num [jsPI]),
    abs_of_neg (by norm_num [jsPI])]
  norm_num [jsPI, clamp, max_def, min_def]

lemma chainEx_detect :
    (detectChain cfgA env0.gen
      (stepChainDecay (1 / 100) (stepTimers (1 / 100)
        (stepKinematics cfgA env0.gen env0.jitter (1 / 100)
          (stepEnter cfgA env0.gen (1 / 100) chainState)))).ballAngle
      (stepChainDecay (1 / 100) (stepTimers (1 / 100)
        (stepKinematics cfgA env0.gen env0.jitter (1 / 100)
          (stepEnter cfgA env0.gen (1 / 100) chainState)))).escaped
      (stepChainDecay (1 / 100) (stepTimers (1 / 100)
        (stepKinematics cfgA env0.gen env0.jitter (1 / 100)
          (stepEnter cfgA env0.gen (1 / 100) chainState)))).store).2 = [0] :=
  detectChain_single cfgA env0.gen _ _ chainEx_aligned0 chainEx_misaligned1

/-- Witness for C8: the escape update and the reachable-state bound applied
at concrete inputs, with every hypothesis discharged. -/
theorem chain_update_spec_witness :
    chainState.pendingEscapes = [] ∧
    (step cfgA env0 (1 / 100) chainState).1.chainTimer = 1.15 ∧
    1 ≤ (resetGame cfgA (fun _ => zeroDraws) 0 0).chain ∧
    (resetGame cfgA (fun _ => zeroDraws) 0 0).chain ≤ 9 := by
  have hres : (detectChain cfgA env0.gen
      (stepChainDecay (1 / 100) (stepTimers (1 / 100)
        (stepKinematics cfgA env0.gen env0.jitter (1 / 100)
          (stepEnter cfgA env0.gen (1 / 100) chainState)))).ballAngle
      (stepChainDecay (1 / 100) (stepTimers (1 / 100)
        (stepKinematics cfgA env0.gen env0.jitter (1 / 100)
          (stepEnter cfgA env0.gen (1 / 100) chainState)))).escaped
      (stepChainDecay (1 / 100) (stepTimers (1 / 100)
        (stepKinematics cfgA env0.gen env0.jitter (1 / 100)
          (stepEnter cfgA env0.gen (1 / 100) chainState)))).store).2 ≠ [] := by
    rw [chainEx_detect]
    simp
  have htimer := (chain_update_spec.1 cfgA env0 (1 / 100) chainState rfl
    chainEx_hct chainEx_hob chainEx_hrt hres).2
  have hreach := chain_update_spec.2.2 cfgA (resetGame cfgA (fun _ => zeroDraws) 0 0)
    (Reachable.reset (fun _ => zeroDraws) 0 0
      (fun _ => by norm_num [ValidDraws, zeroDraws]) le_rfl (by norm_num))
  refine ⟨rfl, ?_, hreach.1, hreach.2⟩
  rw [htimer, chainEx_detect]
  norm_num

/-- Counterexample to C8 as stated: on this tick a single-ring escape is
scored (the score goes up by 1) while 0.99 s remain on the chain timer; the
timer ends the tick at `1.15` — the value the code *sets* — and not at
`max 0 (1 - dt) + 1.15 = 2.14`, the value the claim's "extended by `1.15·k`"
would give. -/
theorem chain_timer_counterexample :
    chainState.chainTimer = 1 ∧
    chainState.pendingEscapes = [] ∧
    (step cfgA env0 (1 / 100) chainState).1.score = chainState.score + 1 ∧
    (step cfgA env0 (1 / 100) chainState).1.chainTimer = 1.15 ∧
    ¬ ((step cfgA env0 (1 / 100) chainState).1.chainTimer
        = max 0 ((1 : ℚ) - 1 / 100) + 1.15) := by
  have hpend4 : (stepChainDecay (1 / 100) (stepTimers (1 / 100)
      (stepKinematics cfgA env0.gen env0.jitter (1 / 100)
        (stepEnter cfgA env0.gen (1 / 100) chainState)))).pendingEscapes = [] := rfl
  have hres : (detectChain cfgA env0.gen
      (stepChainDecay (1 / 100) (stepTimers (1 / 100)
        (stepKinematics cfgA env0.gen env0.jitter (1 / 100)
          (stepEnter cfgA env0.gen (1 / 100) chainState)))).ballAngle
      (stepChainDecay (1 / 100) (stepTimers (1 / 100)
        (stepKinematics cfgA env0.gen env0.jitter (1 / 100)
          (stepEnter cfgA env0.gen (1 / 100) chainState)))).escaped
      (stepChainDecay (1 / 100) (stepTimers (1 / 100)
        (stepKinematics cfgA env0.gen env0.jitter (1 / 100)
          (stepEnter cfgA env0.gen (1 / 100) chainState)))).store).2 ≠ [] := by
    rw [chainEx_detect]
    simp
  rw [step_eq_of_run cfgA env0 (1 / 100) chainState chainEx_hct chainEx_hob chainEx_hrt,
    detectPhase_chain cfgA env0.gen _ hpend4 hres, stepExitPhase_fst, chainEx_detect]
  set s4 := stepChainDecay (1 / 100) (stepTimers (1 / 100)
    (stepKinematics cfgA env0.gen env0.jitter (1 / 100)
      (stepEnter cfgA env0.gen (1 / 100) chainState)))
  have hsc := (processEscape_fields cfgA env0.gen
    { s4 with store := (detectChain cfgA env0.gen s4.ballAngle s4.escaped s4.store).1 }
    [0]).2.1
  have htm := (processEscape_fields cfgA env0.gen
    { s4 with store := (detectChain cfgA env0.gen s4.ballAngle s4.escaped s4.store).1 }
    [0]).2.2.2.1
  refine ⟨rfl, rfl, ?_, ?_, ?_⟩
  · rw [hsc]
    rfl
  · rw [htm]
    norm_num
  · rw [htm]
    norm_num [max_def]

/-! ## C5: ring retention across an in-flight transition -/

lemma alignedB_of_eq {ball : ℚ} {r : Ring} (hgc : r.gapCenter = ball)
    (hw : r.gapWidth = 0.56) : alignedB ball r = true := by
  rw [alignedB_true_iff (by rw [hw]; norm_num) (by rw [hw]; norm_num), hgc, angDiff_self, hw]
  norm_num

lemma chainIdx_six (p : ℕ → Bool) (h0 : p 0 = true) (h1 : p 1 = true) (h2 : p 2 = true)
    (h3 : p 3 = true) (h4 : p 4 = true) (h5 : p 5 = true) :
    chainIdx p 6 0 = [0, 1, 2, 3, 4, 5] := by
  have e6 : chainIdx p 6 0 = if p 0 then 0 :: chainIdx p 5 1 else [] := rfl
  have e5 : chainIdx p 5 1 = if p 1 then 1 :: chainIdx p 4 2 else [] := rfl
  have e4 : chainIdx p 4 2 = if p 2 then 2 :: chainIdx p 3 3 else [] := rfl
  have e3 : chainIdx p 3 3 = if p 3 then 3 :: chainIdx p 2 4 else [] := rfl
  have e2 : chainIdx p 2 4 = if p 4 then 4 :: chainIdx p 1 5 else [] := rfl
  have e1 : chainIdx p 1 5 = if p 5 then 5 :: chainIdx p 0 6 else [] := rfl
  rw [e6, if_pos h0, e5, if_pos h1, e4, if_pos h2, e3, if_pos h3, e2, if_pos h4,
    e1, if_pos h5]
  rfl

/-- The post-tick ball angle of the crafted scenario below. -/
def c5beta : ℚ := 2299747 / 200000000

/-- Gap draws that park each of the five initial rings' gaps exactly under
the ball's post-tick angle once this tick's rotation has moved them. -/
def c5gapU (i : ℕ) : ℚ :=
  (c5beta - 0.4 * (1 + (i : ℚ) * 0.06) * (1 / 100)) / (jsPI * 2)

/-- The reset-time generator draws: positive slow rotation, no drift, no
obstacle roll-under. -/
def c5rgen (i : ℕ) : GenDraws := ⟨if i ≤ 4 then c5gapU i else 0, 0.6, 0, 0, 0.9, 0⟩

/-- The tick-time generator draws (consumed by ring 5, created during
detection and therefore never rotated): its gap is parked directly under the
ball. -/
def c5cdraw : GenDraws := ⟨c5beta / (jsPI * 2), 0.6, 0, 0, 0.9, 0⟩

/-- The crafted fresh run. -/
def c5state : GState := resetGame cfgA c5rgen 0 0

/-- The tick environment: centred jitter, so rotation is exactly
`rotSpeed·dt`. -/
def envC : Env := ⟨fun _ => c5cdraw, fun _ => 0.5, 0⟩

/-- The state the chain detector sees on the crafted tick. -/
def c5s4 : GState :=
  stepChainDecay (1 / 100) (stepTimers (1 / 100)
    (stepKinematics cfgA envC.gen envC.jitter (1 / 100)
      (stepEnter cfgA envC.gen (1 / 100) c5state)))

lemma c5hct :
    criticalTimedOut cfgA (stepEnter cfgA envC.gen (1 / 100) c5state) = false := by
  unfold criticalTimedOut
  have hca : (stepEnter cfgA envC.gen (1 / 100) c5state).criticalActive = false := by
    show (false || (!false && decide ((0.9 : ℚ) ≤ clamp (clamp
        ((0 : ℚ) + 0.08 * (1 / 100)) 0 1 - 0.06 * (1 / 100)) 0 1))) = false
    rw [Bool.false_or, Bool.not_false, Bool.true_and]
    exact decide_eq_false (by norm_num [clamp, max_def, min_def])
  rw [hca, Bool.false_and]

lemma c5hob :
    obstacleHit cfgA (stepKinematics cfgA envC.gen envC.jitter (1 / 100)
      (stepEnter cfgA envC.gen (1 / 100) c5state)) = false := rfl

lemma c5hrt :
    ringTimedOut cfgA (stepTimers (1 / 100)
      (stepKinematics cfgA envC.gen envC.jitter (1 / 100)
        (stepEnter cfgA envC.gen (1 / 100) c5state))) = false := by
  show decide (max 2.6 ((7.5 : ℚ) - ((0 : ℕ) : ℚ) * 0.06) < (0 : ℚ) + 1 / 100) = false
  refine decide_eq_false ?_
  rw [max_lt_iff]
  intro h
  have h1 := h.1
  norm_num at h1

lemma c5ball : c5s4.ballAngle = c5beta := by
  rw [show c5s4.ballAngle
      = jsRem (rand 0 0 (jsPI * 2) + ((1 : ℤ) : ℚ)
          * (min (1.15 + ((0 : ℕ) : ℚ) * 0.018) 3.5
            * lerp 1.00 0.45 (clamp (clamp ((0 : ℚ) + 0.08 * (1 / 100)) 0 1
                - 0.06 * (1 / 100)) 0 1))
          * (1 / 100)) (jsPI * 2) from rfl]
  have hx : rand 0 0 (jsPI * 2) + ((1 : ℤ) : ℚ)
      * (min (1.15 + ((0 : ℕ) : ℚ) * 0.018) 3.5
        * lerp 1.00 0.45 (clamp (clamp ((0 : ℚ) + 0.08 * (1 / 100)) 0 1
            - 0.06 * (1 / 100)) 0 1))
      * (1 / 100) = c5beta := by
    norm_num [rand, lerp, clamp, max_def, min_def, c5beta, jsPI]
  rw [hx, jsRem_eq_self (by norm_num [jsPI]) (by norm_num [c5beta, jsPI])
    (by norm_num [c5beta, jsPI])]

lemma c5al0 : alignedB c5s4.ballAngle (ringAt cfgA envC.gen c5s4.store 0) = true := by
  refine alignedB_of_eq ?_ rfl
  rw [c5ball,
    show (ringAt cfgA envC.gen c5s4.store 0).gapCenter
      = jsRem (rand (c5gapU 0) 0 (jsPI * 2)
          + ((min |(if (0.6 : ℚ) < 0.5 then (-1 : ℚ) else 1) * rand 0 0.40 1.05
                * (1 + ((0 : ℕ) : ℚ) * 0.06)| 3.0
              * jsSign ((if (0.6 : ℚ) < 0.5 then (-1 : ℚ) else 1) * rand 0 0.40 1.05
                * (1 + ((0 : ℕ) : ℚ) * 0.06)))
            + ((0.5 : ℚ) - 0.5) * rand 0 0 0.055) * (1 / 100)) (jsPI * 2) from rfl]
  have hv : (if (0.6 : ℚ) < 0.5 then (-1 : ℚ) else 1) * rand 0 0.40 1.05
      * (1 + ((0 : ℕ) : ℚ) * 0.06) = 2 / 5 := by
    rw [if_neg (by norm_num)]
    norm_num [rand]
  rw [hv]
  have hx : rand (c5gapU 0) 0 (jsPI * 2)
      + ((min |(2 / 5 : ℚ)| 3.0 * jsSign (2 / 5 : ℚ)) + ((0.5 : ℚ) - 0.5) * rand 0 0 0.055)
        * (1 / 100) = c5beta := by
    rw [abs_of_pos (by norm_num), min_eq_left (by norm_num),
      show jsSign (2 / 5 : ℚ) = 1 from by rw [jsSign, if_pos (by norm_num)]]
    norm_num [rand, c5gapU, c5beta, jsPI]
  rw [hx, jsRem_eq_self (by norm_num [jsPI]) (by norm_num [c5beta, jsPI])
    (by norm_num [c5beta, jsPI])]

lemma c5al1 : alignedB c5s4.ballAngle (ringAt cfgA envC.gen c5s4.store 1) = true := by
  refine alignedB_of_eq ?_ rfl
  rw [c5ball,
    show (ringAt cfgA envC.gen c5s4.store 1).gapCenter
      = jsRem (rand (c5gapU 1) 0 (jsPI * 2)
          + ((min |(if (0.6 : ℚ) < 0.5 then (-1 : ℚ) else 1) * rand 0 0.40 1.05
                * (1 + ((1 : ℕ) : ℚ) * 0.06)| 3.0
              * jsSign ((if (0.6 : ℚ) < 0.5 then (-1 : ℚ) else 1) * rand 0 0.40 1.05
                * (1 + ((1 : ℕ) : ℚ) * 0.06)))
            + ((0.5 : ℚ) - 0.5) * rand 0 0 0.055) * (1 / 100)) (jsPI * 2) from rfl]
  have hv : (if (0.6 : ℚ) < 0.5 then (-1 : ℚ) else 1) * rand 0 0.40 1.05
      * (1 + ((1 : ℕ) : ℚ) * 0.06) = 53 / 125 := by
    rw [if_neg (by norm_num)]
    norm_num [rand]
  rw [hv]
  have hx : rand (c5gapU 1) 0 (jsPI * 2)
      + ((min |(53 / 125 : ℚ)| 3.0 * jsSign (53 / 125 : ℚ))
          + ((0.5 : ℚ) - 0.5) * rand 0 0 0.055)
        * (1 / 100) = c5beta := by
    rw [abs_of_pos (by norm_num), min_eq_left (by norm_num),
      show jsSign (53 / 125 : ℚ) = 1 from by rw [jsSign, if_pos (by norm_num)]]
    norm_num [rand, c5gapU, c5beta, jsPI]
  rw [hx, jsRem_eq_self (by norm_num [jsPI]) (by norm_num [c5beta, jsPI])
    (by norm_num [c5beta, jsPI])]

lemma c5al2 : alignedB c5s4.ballAngle (ringAt cfgA envC.gen c5s4.store 2) = true := by
  refine alignedB_of_eq ?_ rfl
  rw [c5ball,
    show (ringAt cfgA envC.gen c5s4.store 2).gapCenter
      = jsRem (rand (c5gapU 2) 0 (jsPI * 2)
          + ((min |(if (0.6 : ℚ) < 0.5 then (-1 : ℚ) else 1) * rand 0 0.40 1.05
                * (1 + ((2 : ℕ) : ℚ) * 0.06)| 3.0
              * jsSign ((if (0.6 : ℚ) < 0.5 then (-1 : ℚ) else 1) * rand 0 0.40 1.05
                * (1 + ((2 : ℕ) : ℚ) * 0.06)))
            + ((0.5 : ℚ) - 0.5) * rand 0 0 0.055) * (1 / 100)) (jsPI * 2) from rfl]
  have hv : (if (0.6 : ℚ) < 0.5 then (-1 : ℚ) else 1) * rand 0 0.40 1.05
      * (1 + ((2 : ℕ) : ℚ) * 0.06) = 56 / 125 := by
    rw [if_neg (by norm_num)]
    norm_num [rand]
  rw [hv]
  have hx : rand (c5gapU 2) 0 (jsPI * 2)
      + ((min |(56 / 125 : ℚ)| 3.0 * jsSign (56 / 125 : ℚ))
          + ((0.5 : ℚ) - 0.5) * rand 0 0 0.055)
        * (1 / 100) = c5beta := by
    rw [abs_of_pos (by norm_num), min_eq_left (by norm_num),
      show jsSign (56 / 125 : ℚ) = 1 from by rw [jsSign, if_pos (by norm_num)]]
    norm_num [rand, c5gapU, c5beta, jsPI]
  rw [hx, jsRem_eq_self (by norm_num [jsPI]) (by norm_num [c5beta, jsPI])
    (by norm_num [c5beta, jsPI])]

lemma c5al3 : alignedB c5s4.ballAngle (ringAt cfgA envC.gen c5s4.store 3) = true := by
  refine alignedB_of_eq ?_ rfl
  rw [c5ball,
    show (ringAt cfgA envC.gen c5s4.store 3).gapCenter
      = jsRem (rand (c5gapU 3) 0 (jsPI * 2)
          + ((min |(if (0.6 : ℚ) < 0.5 then (-1 : ℚ) else 1) * rand 0 0.40 1.05
                * (1 + ((3 : ℕ) : ℚ) * 0.06)| 3.0
              * jsSign ((if (0.6 : ℚ) < 0.5 then (-1 : ℚ) else 1) * rand 0 0.40 1.05
                * (1 + ((3 : ℕ) : ℚ) * 0.06)))
            + ((0.5 : ℚ) - 0.5) * rand 0 0 0.055) * (1 / 100)) (jsPI * 2) from rfl]
  have hv : (if (0.6 : ℚ) < 0.5 then (-1 : ℚ) else 1) * rand 0 0.40 1.05
      * (1 + ((3 : ℕ) : ℚ) * 0.06) = 59 / 125 := by
    rw [if_neg (by norm_num)]
    norm_num [rand]
  rw [hv]
  have hx : rand (c5gapU 3) 0 (jsPI * 2)
      + ((min |(59 / 125 : ℚ)| 3.0 * jsSign (59 / 125 : ℚ))
          + ((0.5 : ℚ) - 0.5) * rand 0 0 0.055)
        * (1 / 100) = c5beta := by
    rw [abs_of_pos (by norm_num), min_eq_left (by norm_num),
      show jsSign (59 / 125 : ℚ) = 1 from by rw [jsSign, if_pos (by norm_num)]]
    norm_num [rand, c5gapU, c5beta, jsPI]
  rw [hx, jsRem_eq_self (by norm_num [jsPI]) (by norm_num [c5beta, jsPI])
    (by norm_num [c5beta, jsPI])]

lemma c5al4 : alignedB c5s4.ballAngle (ringAt cfgA envC.gen c5s4.store 4) = true := by
  refine alignedB_of_eq ?_ rfl
  rw [c5ball,
    show (ringAt cfgA envC.gen c5s4.store 4).gapCenter
      = jsRem (rand (c5gapU 4) 0 (jsPI * 2)
          + ((min |(if (0.6 : ℚ) < 0.5 then (-1 : ℚ) else 1) * rand 0 0.40 1.05
                * (1 + ((4 : ℕ) : ℚ) * 0.06)| 3.0
              * jsSign ((if (0.6 : ℚ) < 0.5 then (-1 : ℚ) else 1) * rand 0 0.40 1.05
                * (1 + ((4 : ℕ) : ℚ) * 0.06)))
            + ((0.5 : ℚ) - 0.5) * rand 0 0 0.055) * (1 / 100)) (jsPI * 2) from rfl]
  have hv : (if (0.6 : ℚ) < 0.5 then (-1 : ℚ) else 1) * rand 0 0.40 1.05
      * (1 + ((4 : ℕ) : ℚ) * 0.06) = 62 / 125 := by
    rw [if_neg (by norm_num)]
    norm_num [rand]
  rw [hv]
  have hx : rand (c5gapU 4) 0 (jsPI * 2)
      + ((min |(62 / 125 : ℚ)| 3.0 * jsSign (62 / 125 : ℚ))
          + ((0.5 : ℚ) - 0.5) * rand 0 0 0.055)
        * (1 / 100) = c5beta := by
    rw [abs_of_pos (by norm_num), min_eq_left (by norm_num),
      show jsSign (62 / 125 : ℚ) = 1 from by rw [jsSign, if_pos (by norm_num)]]
    norm_num [rand, c5gapU, c5beta, jsPI]
  rw [hx, jsRem_eq_self (by norm_num [jsPI]) (by norm_num [c5beta, jsPI])
    (by norm_num [c5beta, jsPI])]

lemma c5al5 : alignedB c5s4.ballAngle (ringAt cfgA envC.gen c5s4.store 5) = true := by
  refine alignedB_of_eq ?_ rfl
  rw [c5ball, show (ringAt cfgA envC.gen c5s4.store 5).gapCenter
      = rand (c5beta / (jsPI * 2)) 0 (jsPI * 2) from rfl]
  norm_num [rand, c5beta, jsPI]

lemma c5detect :
    (detectChain cfgA envC.gen c5s4.ballAngle c5s4.escaped c5s4.store).2
      = [0, 1, 2, 3, 4, 5] := by
  have h : (detectChain cfgA envC.gen c5s4.ballAngle 0 c5s4.store).2 = [0, 1, 2, 3, 4, 5] := by
    rw [detectChain, detectAux_snd]
    exact chainIdx_six _ c5al0 c5al1 c5al2 c5al3 c5al4 c5al5
  exact h

lemma c5hpend4 : c5s4.pendingEscapes = [] := rfl

lemma c5valid_r : ∀ i, ValidDraws (c5rgen i) := by
  intro i
  have h2p : (0 : ℚ) < jsPI * 2 := by norm_num [jsPI]
  have hg0 : 0 ≤ (if i ≤ 4 then c5gapU i else 0) := by
    split
    · rename_i hi
      have hic : ((i : ℕ) : ℚ) ≤ 4 := by exact_mod_cast hi
      unfold c5gapU c5beta
      refine div_nonneg ?_ h2p.le
      nlinarith
    · norm_num
  have hg1 : (if i ≤ 4 then c5gapU i else 0) < 1 := by
    split
    · rename_i hi
      have hic : (0 : ℚ) ≤ ((i : ℕ) : ℚ) := Nat.cast_nonneg i
      have h3 : (3 : ℚ) < jsPI := by norm_num [jsPI]
      unfold c5gapU c5beta
      rw [div_lt_one h2p]
      nlinarith
    · norm_num
  exact ⟨hg0, hg1, by norm_num [c5rgen], by norm_num [c5rgen], by norm_num [c5rgen],
    by norm_num [c5rgen], by norm_num [c5rgen], by norm_num [c5rgen], by norm_num [c5rgen],
    by norm_num [c5rgen], by norm_num [c5rgen], by norm_num [c5rgen]⟩

lemma c5valid_c : ∀ i, ValidDraws (envC.gen i) := by
  intro i
  show ValidDraws c5cdraw
  unfold ValidDraws c5cdraw c5beta
  norm_num [jsPI]

lemma c5jit : ∀ i, 0 ≤ envC.jitter i ∧ envC.jitter i < 1 :=
  fun i => ⟨by norm_num [envC], by norm_num [envC]⟩

lemma c5exit : (step cfgA envC (1 / 100) c5state).2 = .ok := by
  have hres : (detectChain cfgA envC.gen c5s4.ballAngle c5s4.escaped c5s4.store).2 ≠ [] := by
    rw [c5detect]
    simp
  rw [step_eq_of_run cfgA envC (1 / 100) c5state c5hct c5hob c5hrt,
    show stepChainDecay (1 / 100) (stepTimers (1 / 100)
      (stepKinematics cfgA envC.gen envC.jitter (1 / 100)
        (stepEnter cfgA envC.gen (1 / 100) c5state))) = c5s4 from rfl,
    stepExitPhase_snd, detectPhase_chain cfgA envC.gen c5s4 c5hpend4 hres]
  rfl

/-- Counterexample to C5: one tick from a reachable (freshly crafted) run
state scores a 6-ring chain; the end-of-tick re-window at the *old*
`escapedIndex` 0 keeps only indices 0-4, so pending index 5 and the
transition target 6 are referenced by the in-flight transition yet absent
from the Ring Store. -/
theorem eviction_counterexample :
    Reachable cfgA (step cfgA envC (1 / 100) c5state).1 ∧
    (step cfgA envC (1 / 100) c5state).1.pendingEscapes = [0, 1, 2, 3, 4, 5] ∧
    (step cfgA envC (1 / 100) c5state).1.escapeTargetEscaped = 6 ∧
    5 ∉ (step cfgA envC (1 / 100) c5state).1.store.keys ∧
    6 ∉ (step cfgA envC (1 / 100) c5state).1.store.keys := by
  have hres : (detectChain cfgA envC.gen c5s4.ballAngle c5s4.escaped c5s4.store).2 ≠ [] := by
    rw [c5detect]
    simp
  have hreach : Reachable cfgA (step cfgA envC (1 / 100) c5state).1 :=
    Reachable.tick c5state _ envC (1 / 100)
      (Reachable.reset c5rgen 0 0 c5valid_r le_rfl (by norm_num))
      c5valid_c c5jit (by rw [← c5exit])
  have hesc : (processEscape cfgA envC.gen
      { c5s4 with store := (detectChain cfgA envC.gen c5s4.ballAngle c5s4.escaped c5s4.store).1 }
      [0, 1, 2, 3, 4, 5]).escaped = 0 := rfl
  refine ⟨hreach, ?_, ?_, ?_, ?_⟩
  all_goals
    rw [step_eq_of_run cfgA envC (1 / 100) c5state c5hct c5hob c5hrt,
      show stepChainDecay (1 / 100) (stepTimers (1 / 100)
        (stepKinematics cfgA envC.gen envC.jitter (1 / 100)
          (stepEnter cfgA envC.gen (1 / 100) c5state))) = c5s4 from rfl,
      detectPhase_chain cfgA envC.gen c5s4 c5hpend4 hres, stepExitPhase_fst, c5detect]
  · exact (processEscape_fields cfgA envC.gen
      { c5s4 with store := (detectChain cfgA envC.gen c5s4.ballAngle c5s4.escaped c5s4.store).1 }
      [0, 1, 2, 3, 4, 5]).2.2.1
  · exact (processEscape_fields cfgA envC.gen
      { c5s4 with store := (detectChain cfgA envC.gen c5s4.ballAngle c5s4.escaped c5s4.store).1 }
      [0, 1, 2, 3, 4, 5]).2.2.2.2.2.1
  · rw [ensureWindow_keys, hesc]
    decide
  · rw [ensureWindow_keys, hesc]
    decide

lemma step_inflight_keys (cfg : Config) (env : Env) (dt : ℚ) (s : GState)
    (hpe : s.pendingEscapes ≠ [])
    (hprog : clamp (s.escapeTweenProgress + dt / s.escapeTweenDuration) 0 1 < 1) :
    (step cfg env dt s).1.store.keys
      = Finset.Icc (s.escaped - WINDOW_PAST) (s.escaped + WINDOW_FUTURE) := by
  have hcc : commitCond dt (stepEnter cfg env.gen dt s) = false := by
    show (!s.pendingEscapes.isEmpty &&
      decide (1 ≤ clamp (s.escapeTweenProgress + dt / s.escapeTweenDuration) 0 1)) = false
    rw [decide_eq_false (not_le.mpr hprog)]
    exact Bool.and_false _
  have hpe1 : (stepEnter cfg env.gen dt s).pendingEscapes ≠ [] := hpe
  have hkst := stepKinematics_store_inflight cfg env.gen env.jitter dt
    (stepEnter cfg env.gen dt s) hpe1 hcc
  have hst1 : (stepEnter cfg env.gen dt s).store
      = ensureWindow cfg env.gen s.escaped s.store := rfl
  cases hct : criticalTimedOut cfg (stepEnter cfg env.gen dt s) with
  | true =>
    rw [step_eq_of_critical cfg env dt s hct]
    show (ensureWindow cfg env.gen s.escaped s.store).keys = _
    exact ensureWindow_keys cfg env.gen s.escaped s.store
  | false =>
    cases hob : obstacleHit cfg (stepKinematics cfg env.gen env.jitter dt
        (stepEnter cfg env.gen dt s)) with
    | true =>
      rw [step_eq_of_obstacle cfg env dt s hct hob, hkst, hst1]
      exact ensureWindow_keys cfg env.gen s.escaped s.store
    | false =>
      cases hrt : ringTimedOut cfg (stepTimers dt (stepKinematics cfg env.gen env.jitter dt
          (stepEnter cfg env.gen dt s))) with
      | true =>
        rw [step_eq_of_time cfg env dt s hct hob hrt]
        show (stepKinematics cfg env.gen env.jitter dt
          (stepEnter cfg env.gen dt s)).store.keys = _
        rw [hkst, hst1]
        exact ensureWindow_keys cfg env.gen s.escaped s.store
      | false =>
        rw [step_eq_of_run cfg env dt s hct hob hrt]
        have hpe4 : (stepChainDecay dt (stepTimers dt (stepKinematics cfg env.gen env.jitter dt
            (stepEnter cfg env.gen dt s)))).pendingEscapes ≠ [] := by
          show (stepKinematics cfg env.gen env.jitter dt
            (stepEnter cfg env.gen dt s)).pendingEscapes ≠ []
          rw [(stepKinematics_noCommit cfg env.gen env.jitter dt _ hcc).2.1]
          exact hpe
        rw [detectPhase_of_pending cfg env.gen _ hpe4, stepExitPhase_fst, ensureWindow_keys]
        have hesc : (stepChainDecay dt (stepTimers dt (stepKinematics cfg env.gen env.jitter dt
            (stepEnter cfg env.gen dt s)))).escaped = s.escaped := by
          show (stepKinematics cfg env.gen env.jitter dt
            (stepEnter cfg env.gen dt s)).escaped = s.escaped
          rw [(stepKinematics_noCommit cfg env.gen env.jitter dt _ hcc).1]
          rfl
        rw [hesc]

/-- **C5** (amended): on any tick that starts inside an escape transition
whose tween does not complete this tick, the pending buffer and the target
are unchanged, and the tick's windowing passes keep exactly the indices in
`[escaped - 2, escaped + 4]` — so the ring at `escapedIndex`, and every
pending index within `WINDOW_FUTURE` of it, survive the tick.  Retention is
*not* guaranteed beyond that window: a 6-ring chain's last pending index
(`escaped + 5`) and its target (`escaped + 6`) are evicted by the same
re-window the moment the transition is scheduled (see the counterexample). -/
theorem eviction_retention_spec :
    ∀ (cfg : Config) (env : Env) (dt : ℚ) (s : GState),
      s.pendingEscapes ≠ [] →
      clamp (s.escapeTweenProgress + dt / s.escapeTweenDuration) 0 1 < 1 →
      (step cfg env dt s).1.pendingEscapes = s.pendingEscapes ∧
      (step cfg env dt s).1.escapeTargetEscaped = s.escapeTargetEscaped ∧
      (step cfg env dt s).1.store.keys
        = Finset.Icc (s.escaped - WINDOW_PAST) (s.escaped + WINDOW_FUTURE) ∧
      s.escaped ∈ (step cfg env dt s).1.store.keys ∧
      (∀ i, i ∈ s.pendingEscapes → s.escaped ≤ i → i ≤ s.escaped + WINDOW_FUTURE →
        i ∈ (step cfg env dt s).1.store.keys) := by
  intro cfg env dt s hpe hprog
  have hfr := step_inflight cfg env dt s hpe hprog
  have hk := step_inflight_keys cfg env dt s hpe hprog
  refine ⟨hfr.2.1, hfr.2.2.1, hk, ?_, ?_⟩
  · rw [hk, Finset.mem_Icc]
    exact ⟨Nat.sub_le _ _, Nat.le_add_right _ _⟩
  · intro i hi h1 h2
    rw [hk, Finset.mem_Icc]
    exact ⟨le_trans (Nat.sub_le _ _) h1, h2⟩

/-- Witness for C5: the retention contract applied to a concrete mid-flight
tick; the escaped ring is still present afterwards. -/
theorem eviction_retention_spec_witness :
    inflightState.pendingEscapes ≠ [] ∧
    clamp (inflightState.escapeTweenProgress
      + (1 / 100) / inflightState.escapeTweenDuration) 0 1 < 1 ∧
    0 ∈ (step cfgA env0 (1 / 100) inflightState).1.store.keys := by
  have hne : inflightState.pendingEscapes ≠ [] := by
    show ([0] : List ℕ) ≠ []
    simp
  have hcl : clamp (inflightState.escapeTweenProgress
      + (1 / 100) / inflightState.escapeTweenDuration) 0 1 < 1 := by
    show clamp (0 + (1 / 100 : ℚ) / (0.12 : ℚ)) 0 1 < 1
    rw [clamp_eq_self (by norm_num) (by norm_num)]
    norm_num
  exact ⟨hne, hcl,
    (eviction_retention_spec cfgA env0 (1 / 100) inflightState hne hcl).2.2.2.1⟩

end HyperOrbit
